import Mathlib

/-!
Verification of the VSI-to-WireMock translation pipeline.

This file shallowly embeds the translation pipeline of the converter
(`vsi2wm/parser.py`, `vsi2wm/ir.py`, `vsi2wm/ir_builder.py`,
`vsi2wm/helper_converter.py`, `vsi2wm/mapper.py`, `vsi2wm/core.py`) and
proves or refutes the frozen specification claims about it.

Modelling conventions:
* Python strings are `String` / `List Char`; regular-expression substitution
  is embedded as explicit deterministic scanners that implement exactly the
  leftmost, non-overlapping match semantics of `re.sub` / `re.finditer`
  for the concrete patterns appearing in the source (non-greedy groups are
  implemented by minimal-extension scanning with full continuation checks,
  which coincides with backtracking-regex semantics for these patterns).
* Python floats (response weights) are embedded as `Rat`: every weight
  compared in the source comes from decimal literals, whose ordering and
  equality agree with rational ordering and equality.
* Python dicts keyed by strings are association lists updated in place
  (`upsertAssoc`), preserving insertion order as CPython dicts do.
* Python sets of strings are insertion-ordered duplicate-free lists; the
  claims never depend on the iteration order of a set with more than one
  element.
* `xml.etree.ElementTree` elements are the tree `XmlElem`; `iterparse`
  event streams are explicit lists of start/end events, and a document
  whose XML is malformed is represented by the prefix of events produced
  before the error together with the error message.
* Code that may raise is embedded in `Except String`; `try/except` blocks
  in the source become explicit `match` on the `Except` value.
-/

set_option maxRecDepth 4000

namespace Vsi2wm

/-- Character class of Python's regex `\s` and of `str.strip()` on the ASCII
inputs that occur here: space, tab, newline, carriage return, vertical tab,
form feed. -/
def pyWsChar (c : Char) : Bool :=
  c = ' ' || c = '\t' || c = '\n' || c = '\r' || c = '\x0b' || c = '\x0c'

/-- Python `str.strip()` on a character list. -/
def pyStripL (l : List Char) : List Char :=
  ((l.dropWhile pyWsChar).reverse.dropWhile pyWsChar).reverse

/-- Python `str.strip()` on a string. -/
def pyStrip (s : String) : String :=
  String.mk (pyStripL s.data)

/-- Remove a literal prefix, failing when it is not a prefix.  Embeds
matching a literal piece of a regular expression. -/
def stripLit (lit s : List Char) : Option (List Char) :=
  if lit.isPrefixOf s then some (s.drop lit.length) else none

/-- Take one or more leading decimal digits (regex `\d+`, greedy). -/
def takeDigits1 (s : List Char) : Option (List Char × List Char) :=
  let ds := s.takeWhile Char.isDigit
  if ds.isEmpty then none else some (ds, s.drop ds.length)

/-- Take an optional leading sign (regex `[-+]?`). -/
def takeSign : List Char → (List Char × List Char)
  | '-' :: rest => (['-'], rest)
  | '+' :: rest => (['+'], rest)
  | s => ([], s)

/-- Take an optional literal character (regex `c?`). -/
def takeOptChar (c : Char) : List Char → (List Char × List Char)
  | x :: rest => if x = c then ([x], rest) else ([], x :: rest)
  | [] => ([], [])

/-- Drop leading regex whitespace (regex `\s*`, greedy). -/
def dropWs (s : List Char) : List Char :=
  s.dropWhile pyWsChar

/-- Minimal-extension scan embedding a non-greedy group `(.*?)` followed by a
continuation: starting from the current position, find the shortest prefix
(containing no newline, since `.` does not match newlines) after which the
continuation `next` succeeds, and return that prefix together with the
continuation's result. This is exactly the backtracking semantics of a
non-greedy group whose success is determined by the rest of the pattern. -/
def scanMinAcc (next : List Char → Option α) : List Char → List Char →
    Option (List Char × α)
  | acc, s =>
    match next s with
    | some r => some (acc.reverse, r)
    | none =>
      match s with
      | [] => none
      | c :: rest =>
        if c = '\n' then none else scanMinAcc next (c :: acc) rest

/-- Substitution driver embedding `re.sub` with a replacement function: scan
left to right; at each position attempt a match; on a match emit the
replacement and continue after the matched text (matches never overlap), on
a failure emit the current character and move one position right.  `fuel` is
an upper bound on the number of scanning steps; every match of the patterns
used here consumes at least one character, so `fuel = s.length` suffices. -/
def subGo (tryAt : List Char → Option (List Char × List Char)) :
    Nat → List Char → List Char
  | _, [] => []
  | 0, s => s
  | Nat.succ n, c :: rest =>
    match tryAt (c :: rest) with
    | some (rep, rest') => rep ++ subGo tryAt n rest'
    | none => c :: subGo tryAt n rest

/-- Apply a substitution with enough fuel for the whole string. -/
def subAll (tryAt : List Char → Option (List Char × List Char))
    (s : List Char) : List Char :=
  subGo tryAt s.length s

/-- Search driver embedding `re.search`: does the pattern match at some
position of the string? -/
def searchSome (tryAt : List Char → Option α) : List Char → Bool
  | [] => (tryAt []).isSome
  | c :: rest => (tryAt (c :: rest)).isSome || searchSome tryAt (c :: rest).tail

/-- Python truthiness of an optional string (`None` and `""` are falsy). -/
def pyTruthyStr : Option String → Bool
  | none => false
  | some s => !(s = "")

/-- Insert or overwrite a key in an insertion-ordered association list,
embedding CPython dict assignment `d[k] = v`. -/
def upsertAssoc (l : List (String × String)) (k v : String) :
    List (String × String) :=
  if l.any (fun p => p.1 = k) then
    l.map (fun p => if p.1 = k then (k, v) else p)
  else
    l ++ [(k, v)]

/-- Lookup in an association list, embedding CPython dict indexing. -/
def lookupAssoc (l : List (String × String)) (k : String) : Option String :=
  (l.find? (fun p => p.1 = k)).map Prod.snd

/-- Add an element to an insertion-ordered set of strings, embedding
`set.add`. -/
def setAdd (st : List String) (x : String) : List String :=
  if x ∈ st then st else st ++ [x]

/-- Python substring containment `sub in s`. -/
def containsSub (s sub : String) : Bool :=
  searchSome (fun t => if sub.data.isPrefixOf t then some () else none) s.data

end Vsi2wm

namespace Vsi2wm.HelperConverter

/-- Matcher for `date_delta_pattern_encoded`:
regex `\{\{=doDateDeltaFromCurrent\(&quot;(.*?)&quot;,&quot;([-+]?\d+)D&quot;\);.*?\}\}`.
Returns (format group, offset group, rest after the match). -/
def tryDateEncAt (s : List Char) : Option (List Char × List Char × List Char) := do
  let s1 ← stripLit "\x7b\x7b=doDateDeltaFromCurrent(&quot;".data s
  let (fmt, (off, rest)) ← scanMinAcc (fun t => do
      let t1 ← stripLit "&quot;,&quot;".data t
      let (sgn, t2) := takeSign t1
      let (ds, t3) ← takeDigits1 t2
      let t4 ← stripLit "D&quot;);".data t3
      let (_, t5) ← scanMinAcc (fun u => stripLit "\x7d\x7d".data u) [] t4
      pure (sgn ++ ds, t5)) [] s1
  pure (fmt, off, rest)

/-- Matcher for `date_delta_pattern_plain`:
regex `\{\{=doDateDeltaFromCurrent\("(.*?)","([-+]?\d+D?)"\)\}\}`.
Returns (format group, offset group, rest after the match). -/
def tryDatePlainAt (s : List Char) : Option (List Char × List Char × List Char) := do
  let s1 ← stripLit "\x7b\x7b=doDateDeltaFromCurrent(\"".data s
  let (fmt, (off, rest)) ← scanMinAcc (fun t => do
      let t1 ← stripLit "\",\"".data t
      let (sgn, t2) := takeSign t1
      let (ds, t3) ← takeDigits1 t2
      let (dOpt, t4) := takeOptChar 'D' t3
      let t5 ← stripLit "\")\x7d\x7d".data t4
      pure (sgn ++ ds ++ dOpt, t5)) [] s1
  pure (fmt, off, rest)

/-- Matcher for `xpath_pattern`: regex `\{\{=request_(.*?);/\*.*?\*/\}\}`.
Returns (field group, rest after the match). -/
def tryXpathAt (s : List Char) : Option (List Char × List Char) := do
  let s1 ← stripLit "\x7b\x7b=request_".data s
  let (fld, rest) ← scanMinAcc (fun t => do
      let t1 ← stripLit ";/*".data t
      let (_, t2) ← scanMinAcc (fun u => stripLit "*/\x7d\x7d".data u) [] t1
      pure t2) [] s1
  pure (fld, rest)

/-- Matcher for `simple_request_pattern`: regex `\{\{=request_(.*?)\}\}`.
Returns (field group, rest after the match). -/
def trySimpleReqAt (s : List Char) : Option (List Char × List Char) := do
  let s1 ← stripLit "\x7b\x7b=request_".data s
  scanMinAcc (fun t => stripLit "\x7d\x7d".data t) [] s1

/-- Matcher for `random_string_pattern`: regex `\{\{=doRandomString\((\d+)\)\}\}`.
Returns (length group, rest after the match). -/
def tryRandStrAt (s : List Char) : Option (List Char × List Char) := do
  let s1 ← stripLit "\x7b\x7b=doRandomString(".data s
  let (ds, s2) ← takeDigits1 s1
  let s3 ← stripLit ")\x7d\x7d".data s2
  pure (ds, s3)

/-- Matcher for `random_number_pattern`:
regex `\{\{=doRandomNumber\(\s*(\d+)\s*,\s*(\d+)\s*\)\}\}`.
Returns (min group, max group, rest after the match). -/
def tryRandNumAt (s : List Char) : Option (List Char × List Char × List Char) := do
  let s1 ← stripLit "\x7b\x7b=doRandomNumber(".data s
  let (d1, s2) ← takeDigits1 (dropWs s1)
  let s3 ← stripLit ",".data (dropWs s2)
  let (d2, s4) ← takeDigits1 (dropWs s3)
  let s5 ← stripLit ")\x7d\x7d".data (dropWs s4)
  pure (d1, d2, s5)

/-- Matcher for one of the fixed literal helper patterns
(`doRandomBoolean`, `doRandomEmail`, `doRandomSSN`, `doRandomCreditCard`). -/
def tryLitAt (lit : String) (s : List Char) : Option (List Char) :=
  stripLit lit.data s

/-- Matcher for `ca_lisa_helper_pattern`: regex `\{\{=([^}]+)\}\}`.  The
greedy class `[^}]+` cannot cross a `}`, so the match is the maximal run of
non-`}` characters after the opening, which must be followed immediately by
the closing braces.  Returns (inner-expression group, rest after match). -/
def tryCatchAt (s : List Char) : Option (List Char × List Char) := do
  let s1 ← stripLit "\x7b\x7b=".data s
  let content := s1.takeWhile (fun c => c ≠ '\x7d')
  if content.isEmpty then none else
  let s2 ← stripLit "\x7d\x7d".data (s1.drop content.length)
  pure (content, s2)

/-- The full text matched by `ca_lisa_helper_pattern` for a given inner
expression (`match.group(0)`). -/
def catchFull (content : List Char) : List Char :=
  "\x7b\x7b=".data ++ content ++ "\x7d\x7d".data

/-- The `is_supported` disjunction of `HelperConverter`: does any of the ten
recognized helper patterns `search`-match inside the full helper
expression? -/
def isSupportedFull (e : List Char) : Bool :=
  searchSome tryDateEncAt e ||
  searchSome tryDatePlainAt e ||
  searchSome tryXpathAt e ||
  searchSome trySimpleReqAt e ||
  searchSome tryRandStrAt e ||
  searchSome tryRandNumAt e ||
  searchSome (tryLitAt "\x7b\x7b=doRandomBoolean()\x7d\x7d") e ||
  searchSome (tryLitAt "\x7b\x7b=doRandomEmail()\x7d\x7d") e ||
  searchSome (tryLitAt "\x7b\x7b=doRandomSSN()\x7d\x7d") e ||
  searchSome (tryLitAt "\x7b\x7b=doRandomCreditCard()\x7d\x7d") e

/-- Replacement step of `replace_unsupported_helpers`: a supported helper is
kept verbatim, an unsupported one becomes the visible marker. -/
def tryReplaceUnsupportedAt (s : List Char) :
    Option (List Char × List Char) := do
  let (content, rest) ← tryCatchAt s
  if isSupportedFull (catchFull content) then
    pure (catchFull content, rest)
  else
    pure ("[UNSUPPORTED: ".data ++ content ++ "]".data, rest)

/-- Embedding of `HelperConverter.replace_unsupported_helpers`. -/
def replaceUnsupportedL (s : List Char) : List Char :=
  if s.isEmpty then s else subAll tryReplaceUnsupportedAt s

/-- Scanner of `detect_unsupported_helpers`: walk the `finditer` matches of
the catch-all pattern, collect each unsupported full expression into the
returned list and into the accumulated unsupported set. -/
def detectGo : Nat → List Char → List String → List String × List String
  | _, [], st => ([], st)
  | 0, _, st => ([], st)
  | Nat.succ n, c :: rest, st =>
    match tryCatchAt (c :: rest) with
    | some (content, rest') =>
      let full := catchFull content
      if isSupportedFull full then
        detectGo n rest' st
      else
        let r := detectGo n rest' (setAdd st (String.mk full))
        (String.mk full :: r.1, r.2)
    | none => detectGo n rest st

/-- Embedding of `HelperConverter.detect_unsupported_helpers`; the second
component threads the converter's `unsupported_helpers` set. -/
def detectUnsupportedL (s : List Char) (st : List String) :
    List String × List String :=
  if s.isEmpty then ([], st) else detectGo s.length s st

/-- Replacement for the encoded date-delta pattern, template
`{now offset='\2 days' format='\1'}` with doubled braces. -/
def repDateEnc (fmt off : List Char) : List Char :=
  "\x7b\x7bnow offset='".data ++ off ++ " days' format='".data ++ fmt ++
    "'\x7d\x7d".data

/-- Embedding of the `replace_date_delta` function: the trailing `D` of the
offset group is removed before building the target expression. -/
def repDatePlain (fmt off : List Char) : List Char :=
  let off' := if off.getLast? = some 'D' then off.dropLast else off
  repDateEnc fmt off'

/-- Replacement of `convert_xpath` / `convert_simple_request`: underscores
in the field group become slashes inside an XPath expression. -/
def repXpath (fld : List Char) : List Char :=
  "\x7b\x7bxPath request.body '//".data ++
    (fld.map (fun c => if c = '_' then '/' else c)) ++ "/text()'\x7d\x7d".data

/-- Replacement of `convert_random_string`. -/
def repRandStr (n : List Char) : List Char :=
  "\x7b\x7brandomValue type='ALPHANUMERIC' length='".data ++ n ++
    "'\x7d\x7d".data

/-- Replacement of `convert_random_number`. -/
def repRandNum (a b : List Char) : List Char :=
  "\x7b\x7brandomInt lower=".data ++ a ++ " upper=".data ++ b ++ "\x7d\x7d".data

/-- Embedding of `HelperConverter.convert_date_delta` (encoded pattern
substitution followed by plain pattern substitution). -/
def convertDateDeltaL (s : List Char) : List Char :=
  let s1 := subAll (fun t => (tryDateEncAt t).map
    (fun r => (repDateEnc r.1 r.2.1, r.2.2))) s
  subAll (fun t => (tryDatePlainAt t).map
    (fun r => (repDatePlain r.1 r.2.1, r.2.2))) s1

/-- Embedding of `HelperConverter.convert_helpers`: first replace
unsupported helpers with markers, then apply each recognized-pattern
substitution in source order. -/
def convertHelpersL (s : List Char) : List Char :=
  if s.isEmpty then s else
  let s := replaceUnsupportedL s
  let s := convertDateDeltaL s
  let s := subAll (fun t => (tryXpathAt t).map
    (fun r => (repXpath r.1, r.2))) s
  let s := subAll (fun t => (trySimpleReqAt t).map
    (fun r => (repXpath r.1, r.2))) s
  let s := subAll (fun t => (tryRandStrAt t).map
    (fun r => (repRandStr r.1, r.2))) s
  let s := subAll (fun t => (tryRandNumAt t).map
    (fun r => (repRandNum r.1 r.2.1, r.2.2))) s
  let s := subAll (fun t => (tryLitAt "\x7b\x7b=doRandomBoolean()\x7d\x7d" t).map
    (fun r => ("\x7b\x7bpickRandom true false\x7d\x7d".data, r))) s
  let s := subAll (fun t => (tryLitAt "\x7b\x7b=doRandomEmail()\x7d\x7d" t).map
    (fun r => ("\x7b\x7brandom 'Internet.safeEmailAddress'\x7d\x7d".data, r))) s
  let s := subAll (fun t => (tryLitAt "\x7b\x7b=doRandomSSN()\x7d\x7d" t).map
    (fun r => ("\x7b\x7brandom 'IdNumber.ssnValid'\x7d\x7d".data, r))) s
  subAll (fun t => (tryLitAt "\x7b\x7b=doRandomCreditCard()\x7d\x7d" t).map
    (fun r => ("\x7b\x7brandom 'Business.creditCardNumber'\x7d\x7d".data, r))) s

/-- String-level `convert_helpers`. -/
def convert_helpers (s : String) : String :=
  String.mk (convertHelpersL s.data)

/-- String-level `replace_unsupported_helpers`. -/
def replace_unsupported_helpers (s : String) : String :=
  String.mk (replaceUnsupportedL s.data)

/-- String-level `detect_unsupported_helpers`, also returning the updated
unsupported set. -/
def detect_unsupported_helpers (s : String) (st : List String) :
    List String × List String :=
  detectUnsupportedL s.data st

/-- Embedding of `HelperConverter.convert_headers`: truthy header values are
scanned for unsupported helpers and converted; falsy values pass through. -/
def convertHeadersHC (hs : List (String × String)) (st : List String) :
    List (String × String) × List String :=
  hs.foldl (fun acc p =>
    if p.2 = "" then (acc.1 ++ [p], acc.2)
    else
      let st' := (detectUnsupportedL p.2.data acc.2).2
      (acc.1 ++ [(p.1, String.mk (convertHelpersL p.2.data))], st'))
    ([], st)

end Vsi2wm.HelperConverter

namespace Vsi2wm

/-- Numeric value of a digit string. -/
def digitsVal (ds : List Char) : Nat :=
  ds.foldl (fun a c => a * 10 + (c.toNat - 48)) 0

/-- Embedding of Python `int(text)`: optional surrounding whitespace,
optional sign, one or more digits (digit-group underscores are not used by
any input of this system). -/
def pyInt (s : String) : Option Int :=
  let t := pyStripL s.data
  let p := takeSign t
  let ds := p.2.takeWhile Char.isDigit
  if ds.isEmpty then none
  else if !(p.2.drop ds.length).isEmpty then none
  else some ((if p.1 = ['-'] then -1 else 1) * (digitsVal ds : Int))

/-- Embedding of Python `float(text)` on the decimal notations that occur
in weight fields: optional whitespace and sign, digits with an optional
fraction part (at least one digit overall), optional exponent.  The value is
an exact rational; `inf`/`nan` spellings are not modelled (no input of the
claims uses them). -/
def pyFloat (s : String) : Option Rat :=
  let t := pyStripL s.data
  let p := takeSign t
  let ip := p.2.takeWhile Char.isDigit
  let t2 := p.2.drop ip.length
  let fr : Option (List Char × List Char) :=
    match t2 with
    | '.' :: r => some (r.takeWhile Char.isDigit, r.drop (r.takeWhile Char.isDigit).length)
    | _ => some ([], t2)
  match fr with
  | none => none
  | some (fp, t3) =>
    if ip.isEmpty && fp.isEmpty then none
    else
      let ex : Option (Int × List Char) :=
        match t3 with
        | c :: r =>
          if c = 'e' || c = 'E' then
            let q := takeSign r
            let eds := q.2.takeWhile Char.isDigit
            if eds.isEmpty then none
            else some ((if q.1 = ['-'] then -1 else 1) * (digitsVal eds : Int),
              q.2.drop eds.length)
          else some (0, t3)
        | [] => some (0, [])
      match ex with
      | none => none
      | some (e, t4) =>
        if !t4.isEmpty then none
        else
          let m : Int := (if p.1 = ['-'] then -1 else 1) * (digitsVal (ip ++ fp) : Int)
          let shift : Int := e - (fp.length : Int)
          some (mkRat (m * (10 : Int) ^ shift.toNat) ((10 : Nat) ^ (-shift).toNat))

/-- Python `str.split(sep)` for a one-character separator. -/
def pySplitChar (sep : Char) : List Char → List (List Char)
  | [] => [[]]
  | c :: rest =>
    match pySplitChar sep rest with
    | [] => [[]]
    | h :: tl => if c = sep then [] :: h :: tl else (c :: h) :: tl

/-- An `xml.etree.ElementTree` element: tag, attributes, text, children.
Tail text is irrelevant to every code path modelled here. -/
structure XmlElem where
  tag : String
  attrs : List (String × String)
  text : Option String
  children : List XmlElem

/-- Python truthiness of an `Element`: an element with no children is falsy
(`Element.__len__` is the number of children). -/
def elemTruthy (e : XmlElem) : Bool :=
  !e.children.isEmpty

/-- Python truthiness of `find(...)` results: `None` is falsy, a childless
element is falsy. -/
def optElemTruthy : Option XmlElem → Bool
  | none => false
  | some e => elemTruthy e

mutual

/-- All descendants of an element in document (preorder) order; this is the
sequence walked by `findall('.//tag')` before tag filtering. -/
def descendants : XmlElem → List XmlElem
  | ⟨_, _, _, cs⟩ => descendantsList cs

/-- Descendants-or-self of each element of a list, in order. -/
def descendantsList : List XmlElem → List XmlElem
  | [] => []
  | c :: cs => c :: descendants c ++ descendantsList cs

end

/-- Embedding of `elem.find('.//tag')`: first descendant with the tag. -/
def findTag (e : XmlElem) (tag : String) : Option XmlElem :=
  (descendants e).find? (fun d => d.tag = tag)

/-- Embedding of `elem.findall('.//tag')`: all descendants with the tag in
document order. -/
def findallTag (e : XmlElem) (tag : String) : List XmlElem :=
  (descendants e).filter (fun d => d.tag = tag)

/-- Value of `elem.text or default` (empty or absent text is falsy). -/
def textOr (t : Option String) (d : String) : String :=
  match t with
  | some s => if s = "" then d else s
  | none => d

/-- Latency record of `vsi2wm/ir.py` (dataclass `Latency`): a mode string
with mostly-optional millisecond fields. -/
structure Latency where
  mode : String
  min_ms : Option Int := none
  max_ms : Option Int := none
  fixed_ms : Option Int := none
deriving DecidableEq, Repr

/-- Embedding of `detect_body_type` (`vsi2wm/ir.py`): strip, then bracket
heuristics for JSON and XML, defaulting to text. -/
def detect_body_type (content : String) : String :=
  let c := pyStripL content.data
  if c.head? = some '\x7b' && c.getLast? = some '\x7d' then "json"
  else if c.head? = some '<' && c.getLast? = some '>' then "xml"
  else "text"

/-- Embedding of `parse_latency` (`vsi2wm/ir.py`): a dashed `ms` attribute
yields a range when both halves parse as ints, otherwise the whole
attribute is tried as a fixed value; any parse failure yields no latency. -/
def parse_latency (le : Option XmlElem) : Option Latency :=
  match le with
  | none => none
  | some e =>
    match lookupAssoc e.attrs "ms" with
    | none => none
    | some ms =>
      let ranged : Option Latency :=
        if ms ≠ "" && ms.data.contains '-' then
          match (pySplitChar '-' ms.data).map (fun l => pyInt (String.mk l)) with
          | [some a, some b] =>
            some { mode := "range", min_ms := some a, max_ms := some b }
          | _ => none
        else none
      match ranged with
      | some l => some l
      | none =>
        if ms ≠ "" then
          match pyInt ms with
          | some n => some { mode := "fixed", fixed_ms := some n }
          | none => none
        else none

/-- Embedding of `parse_weight` (`vsi2wm/ir.py`): the element text, or its
`value` attribute, parsed as a float with default 1.0 on failure. -/
def parse_weight (we : Option XmlElem) : Rat :=
  match we with
  | none => 1
  | some e =>
    let wtext := textOr e.text ((lookupAssoc e.attrs "value").getD "1.0")
    (pyFloat wtext).getD 1

/-- Embedding of `extract_headers` (`vsi2wm/ir.py`): falsy containers yield
an empty map; each `header` descendant with a truthy `name` attribute maps
the name to the element text, defaulting empty text to `"*"`. -/
def extract_headers (he : Option XmlElem) : List (String × String) :=
  match he with
  | none => []
  | some e =>
    if !elemTruthy e then []
    else
      (findallTag e "header").foldl (fun acc h =>
        let name := lookupAssoc h.attrs "name"
        let value := textOr h.text "*"
        match name with
        | some n => if n = "" then acc else upsertAssoc acc n value
        | none => acc) []

/-- Embedding of `extract_query_params` (`vsi2wm/ir.py`), identical in
shape to header extraction but over `param` descendants. -/
def extract_query_params (qe : Option XmlElem) : List (String × String) :=
  match qe with
  | none => []
  | some e =>
    if !elemTruthy e then []
    else
      (findallTag e "param").foldl (fun acc h =>
        let name := lookupAssoc h.attrs "name"
        let value := textOr h.text "*"
        match name with
        | some n => if n = "" then acc else upsertAssoc acc n value
        | none => acc) []

end Vsi2wm

namespace Vsi2wm

/-- One `iterparse` event. -/
inductive XEvent where
  | start (e : XmlElem)
  | stop (e : XmlElem)

mutual

/-- The `iterparse(events=("start","end"))` stream of a well-formed
document: start of an element, events of its children, end of the
element. -/
def toEvents : XmlElem → List XEvent
  | ⟨t, a, x, cs⟩ =>
    XEvent.start ⟨t, a, x, cs⟩ :: (toEventsList cs ++ [XEvent.stop ⟨t, a, x, cs⟩])

/-- Event streams of a list of sibling elements, concatenated in order. -/
def toEventsList : List XmlElem → List XEvent
  | [] => []
  | c :: cs => toEvents c ++ toEventsList cs

end

/-- Input to the streaming parser: the events produced before any XML
error, together with the error message when the document is malformed
(`none` for a well-formed document whose full stream is `events`). -/
structure ParseInput where
  events : List XEvent
  err : Option String

/-- The `ParseInput` of a well-formed document. -/
def wellFormed (root : XmlElem) : ParseInput :=
  { events := toEvents root, err := none }

/-- The start-event elements of a stream, as seen by
`iterparse(events=("start",))`. -/
def startElems (evs : List XEvent) : List XmlElem :=
  evs.filterMap (fun ev => match ev with
    | XEvent.start e => some e
    | XEvent.stop _ => none)

/-- Result record of `VSIParser.detect_layout` together with the parser
state it mutates (layout, transaction counter, warnings). -/
structure LayoutResult where
  layout : String
  transactions_count : Nat
  warnings : List String
deriving DecidableEq, Repr

/-- The scanning loop of `detect_layout`: walk events in order; the first
`bd` start short-circuits as model-based, the first `reqData`/`rspData`
start short-circuits as rr-pairs, each `t` start increments the counter.
Returns the short-circuit layout (if any) and the final counter. -/
def layoutLoop : List XEvent → Nat → Option String × Nat
  | [], n => (none, n)
  | XEvent.start e :: rest, n =>
    if e.tag = "bd" then (some "model_based", n)
    else if e.tag = "reqData" || e.tag = "rspData" then (some "rr_pairs", n)
    else if e.tag = "t" then layoutLoop rest (n + 1)
    else layoutLoop rest n
  | XEvent.stop _ :: rest, n => layoutLoop rest n

/-- Embedding of `VSIParser.detect_layout`: when the loop is short-circuited
by a marker the XML error (which lies beyond the break) is never raised;
when the loop exhausts the produced events, a malformed document's error is
caught, a warning is recorded and the layout stays unknown; an unknown
layout is then coerced to model-based (with only a log message, no
warning). -/
def detect_layout (inp : ParseInput) : LayoutResult :=
  match layoutLoop inp.events 0 with
  | (some l, n) => { layout := l, transactions_count := n, warnings := [] }
  | (none, n) =>
    match inp.err with
    | some m =>
      { layout := "model_based", transactions_count := n,
        warnings := ["Layout detection failed: " ++ m] }
    | none =>
      { layout := "model_based", transactions_count := n, warnings := [] }

/-- The scanning loop of `extract_metadata`: first `serviceImage` start
yields its `version`/`buildNumber` attributes. -/
def metaLoop : List XmlElem → Option (Option String × Option String)
  | [] => none
  | e :: rest =>
    if e.tag = "serviceImage" then
      some (lookupAssoc e.attrs "version", lookupAssoc e.attrs "buildNumber")
    else metaLoop rest

/-- Embedding of `VSIParser.extract_metadata`: returns
(source version, build number, warnings added). -/
def extract_metadata (inp : ParseInput) :
    Option String × Option String × List String :=
  match metaLoop (startElems inp.events) with
  | some (v, b) => (v, b, [])
  | none =>
    match inp.err with
    | some m => (none, none, ["Metadata extraction failed: " ++ m])
    | none => (none, none, [])

/-- The scanning loop of `detect_protocol`: first `protocol` start, or
first `p` start whose `n` attribute is `protocol`, yields the element text
(possibly `None`); `some t` means the loop broke with text `t`. -/
def protoLoop : List XmlElem → Option (Option String)
  | [] => none
  | e :: rest =>
    if e.tag = "protocol" then some e.text
    else if e.tag = "p" && lookupAssoc e.attrs "n" = some "protocol" then some e.text
    else protoLoop rest

/-- Embedding of `VSIParser.detect_protocol`: returns (protocol found,
warnings added by this call). -/
def detect_protocol (inp : ParseInput) : Option String × List String :=
  match protoLoop (startElems inp.events) with
  | some t => (t, [])
  | none =>
    match inp.err with
    | some m => (none, ["Protocol detection failed: " ++ m])
    | none => (none, [])

/-- Python `str.lower()` on the ASCII protocol values used here. -/
def pyLower (s : String) : String :=
  String.mk (s.data.map Char.toLower)

/-- The HTTP-family test of `is_http_protocol` on a detected protocol
string. -/
def isHttpValue (p : String) : Bool :=
  pyLower p = "http" || pyLower p = "https" || pyLower p = "http/s"

/-- Embedding of `VSIParser.is_http_protocol`: re-runs protocol detection;
absence of a protocol assumes HTTP; a non-HTTP value records the skip
warning.  Returns (is_http, warnings added by this call). -/
def is_http_protocol (inp : ParseInput) : Bool × List String :=
  let d := detect_protocol inp
  match d.1 with
  | none => (true, d.2)
  | some p =>
    if isHttpValue p then (true, d.2)
    else (false, d.2 ++ ["Skipping non-HTTP protocol: " ++ p])

/-- Result record of `VSIParser.parse`. -/
structure ParseResult where
  layout : String
  source_version : Option String
  build_number : Option String
  protocol : Option String
  is_http : Bool
  transactions_count : Nat
  warnings : List String
deriving DecidableEq, Repr

/-- Embedding of `VSIParser.parse` / `parse_vsi_file`: layout detection,
metadata extraction, protocol detection, then the HTTP check (which runs
protocol detection a second time); warnings accumulate in that order on the
shared parser state. -/
def parse_vsi_file (inp : ParseInput) : ParseResult :=
  let lay := detect_layout inp
  let meta := extract_metadata inp
  let proto := detect_protocol inp
  let http := is_http_protocol inp
  { layout := lay.layout,
    source_version := meta.1,
    build_number := meta.2.1,
    protocol := proto.1,
    is_http := http.1,
    transactions_count := lay.transactions_count,
    warnings := lay.warnings ++ meta.2.2 ++ proto.2 ++ http.2 }

end Vsi2wm

namespace Vsi2wm

/-- Dataclass `RequestBody` (`vsi2wm/ir.py`). -/
structure RequestBody where
  type : String
  content : String
deriving DecidableEq, Repr

/-- Dataclass `ResponseBody` (`vsi2wm/ir.py`). -/
structure ResponseBody where
  type : String
  content : String
deriving DecidableEq, Repr

/-- Dataclass `Request` (`vsi2wm/ir.py`). -/
structure Request where
  method : String
  path : String
  path_template : Option String := none
  soap_action : Option String := none
  operation : Option String := none
  headers : List (String × String) := []
  query : List (String × String) := []
  body : Option RequestBody := none
deriving DecidableEq, Repr

/-- Dataclass `ResponseVariant` (`vsi2wm/ir.py`); the weight is an exact
rational standing for the Python float. -/
structure ResponseVariant where
  status : Int
  headers : List (String × String) := []
  body : Option ResponseBody := none
  latency : Option Latency := none
  weight : Rat := 1
  notes : Option String := none
deriving DecidableEq, Repr

/-- Dataclass `Transaction` (`vsi2wm/ir.py`); the `state` field is omitted
because `_extract_state_info` always returns `None` in the source. -/
structure Transaction where
  id : String
  request : Request
  response_variants : List ResponseVariant := []
  selection_logic : Option String := none
deriving DecidableEq, Repr

/-- Dataclass `IntermediateRepresentation` (`vsi2wm/ir.py`); the `meta`
map is never written by the builder and is kept as an association list. -/
structure IntermediateRepresentation where
  protocol : String := "HTTP"
  transactions : List Transaction := []
  meta : List (String × String) := []
deriving DecidableEq, Repr

end Vsi2wm

namespace Vsi2wm.IRBuilder

open Vsi2wm.HelperConverter

/-- Mutable state of `IRBuilder` during a build: the IR's transaction list
and the accumulated warning list.  The helper converter's unsupported set is
cleared before every use in the source, so it is scoped locally to each
conversion site here. -/
structure BuildState where
  transactions : List Transaction
  warnings : List String
deriving Repr

/-- The `m`-children scan of `_build_request`: the `if`/`elif` chain over
the children of the `m` element, later occurrences overwriting earlier
ones.  The accumulator is (method, path, path template, SOAP action,
operation). -/
def mScan (cs : List XmlElem) :
    String × String × Option String × Option String × Option String :=
  cs.foldl (fun acc c =>
    let (method, path, ptemp, soapA, oper) := acc
    if c.tag = "method" then (textOr c.text "GET", path, ptemp, soapA, oper)
    else if c.tag = "path" then (method, textOr c.text "/", ptemp, soapA, oper)
    else if c.tag = "pathTemplate" then (method, path, c.text, soapA, oper)
    else if c.tag = "soapAction" then (method, path, ptemp, c.text, oper)
    else if c.tag = "operation" then (method, path, ptemp, soapA, c.text)
    else acc) ("GET", "/", none, none, none)

/-- Embedding of `IRBuilder._build_request`: defaults, `m`-element scan,
header extraction and helper conversion, query extraction, first `bd`
child body processing with the SOAP method override; returns the request
and the warnings appended to the builder. -/
def build_request (rq : XmlElem) : Request × List String :=
  let mcs := match findTag rq "m" with
    | some m => if elemTruthy m then m.children else []
    | none => []
  let (method, path, ptemp, soapA, oper) := mScan mcs
  let headersPart :=
    match findTag rq "headers" with
    | some he =>
      if elemTruthy he then
        let hs := extract_headers (some he)
        let r := convertHeadersHC hs []
        (r.1, r.2.map (fun h => "Unsupported CA LISA helper in request header: " ++ h))
      else ([], ([] : List String))
    | none => ([], [])
  let query :=
    match findTag rq "query" with
    | some qe => if elemTruthy qe then extract_query_params (some qe) else []
    | none => []
  let bodyPart :=
    match rq.children.find? (fun c => c.tag = "bd") with
    | none => (none, method, ([] : List String))
    | some bd =>
      match bd.text with
      | none => (none, method, [])
      | some txt =>
        if txt = "" then (none, method, [])
        else
          let content := pyStrip txt
          if content = "" then (none, method, [])
          else
            let btype := detect_body_type content
            let det := detectUnsupportedL content.data []
            let conv := String.mk (convertHelpersL content.data)
            let wb := det.2.map
              (fun h => "Unsupported CA LISA helper in request body: " ++ h)
            let method' :=
              if btype = "xml" && containsSub conv "soapenv:Envelope"
                  && method = "GET" then "POST" else method
            (some (RequestBody.mk btype conv), method', wb)
  ({ method := bodyPart.2.1,
     path := path,
     path_template := ptemp,
     soap_action := soapA,
     operation := oper,
     headers := headersPart.1,
     query := query,
     body := bodyPart.1 },
   headersPart.2 ++ bodyPart.2.2)

/-- Embedding of `IRBuilder._process_transaction_start`: a transaction
whose `rq` descendant is missing **or falsy** (an `Element` with no
children is falsy in Python) is dropped with only a log message — nothing
is appended to the warnings list; otherwise the request is built and a new
transaction with no variants is appended to the IR. -/
def process_transaction_start (te : XmlElem) (st : BuildState) : BuildState :=
  let tid := (lookupAssoc te.attrs "id").getD "unknown"
  match findTag te "rq" with
  | none => st
  | some rq =>
    if !elemTruthy rq then st
    else
      let r := build_request rq
      { transactions := st.transactions ++
          [{ id := tid, request := r.1, response_variants := [],
             selection_logic := none }],
        warnings := st.warnings ++ r.2 }

/-- Embedding of `IRBuilder._build_response_variant`: status from the first
`status` child of `m`, headers with helper conversion, first `bd` child
body with helper conversion, latency and weight from the `m` children,
notes from a truthy `notes` descendant with truthy text.  Returns the
variant and the warnings appended. -/
def build_response_variant (rp : XmlElem) : ResponseVariant × List String :=
  let mcs := match findTag rp "m" with
    | some m => if elemTruthy m then m.children else []
    | none => []
  let status : Int :=
    match mcs.find? (fun c => c.tag = "status") with
    | some c =>
      match c.text with
      | some t => if t = "" then 200 else (pyInt t).getD 200
      | none => 200
    | none => 200
  let hs := extract_headers (findTag rp "headers")
  let hr := convertHeadersHC hs []
  let wh := hr.2.map (fun h => "Unsupported CA LISA helper in response header: " ++ h)
  let bodyPart :=
    match rp.children.find? (fun c => c.tag = "bd") with
    | none => (none, ([] : List String))
    | some bd =>
      match bd.text with
      | none => (none, [])
      | some txt =>
        if txt = "" then (none, [])
        else
          let content := pyStrip txt
          if content = "" then (none, [])
          else
            let btype := detect_body_type content
            let det := detectUnsupportedL content.data []
            let conv := String.mk (convertHelpersL content.data)
            let wb := det.2.map
              (fun h => "Unsupported CA LISA helper in response body: " ++ h)
            (some (ResponseBody.mk btype conv), wb)
  let latency :=
    match mcs.find? (fun c => c.tag = "latency") with
    | some c => parse_latency (some c)
    | none => none
  let weight : Rat :=
    match mcs.find? (fun c => c.tag = "selectionWeight" || c.tag = "weight") with
    | some c => parse_weight (some c)
    | none => 1
  let notes :=
    match findTag rp "notes" with
    | some ne =>
      if elemTruthy ne && pyTruthyStr ne.text then
        some (pyStrip (ne.text.getD ""))
      else none
    | none => none
  ({ status := status, headers := hr.1, body := bodyPart.1,
     latency := latency, weight := weight, notes := notes },
   wh ++ bodyPart.2)

/-- Append a variant (and possibly a selection-logic snippet) to the first
transaction with the given id. -/
def attachVariant (ts : List Transaction) (tid : String)
    (v : ResponseVariant) (sel : Option String) : List Transaction :=
  match ts with
  | [] => []
  | t :: rest =>
    if t.id = tid then
      { t with
        response_variants := t.response_variants ++ [v],
        selection_logic := match sel with
          | some s => some s
          | none => t.selection_logic } :: rest
    else t :: attachVariant rest tid v sel

/-- Embedding of `IRBuilder._process_response_variant`: when no transaction
with the id exists the variant is discarded with only a log message
(nothing appended to the warnings list); otherwise the variant is built and
attached, and a truthy `matchScript` text inside the first `m` child sets
the transaction's selection logic. -/
def process_response_variant (rp : XmlElem) (tid : String) (st : BuildState) :
    BuildState :=
  if !(st.transactions.any (fun t => t.id = tid)) then st
  else
    let r := build_response_variant rp
    let mcs := match findTag rp "m" with
      | some m => if elemTruthy m then m.children else []
      | none => []
    let sel :=
      match mcs.find? (fun c => c.tag = "matchScript") with
      | some c => if pyTruthyStr c.text then some (pyStrip (c.text.getD "")) else none
      | none => none
    { transactions := attachVariant st.transactions tid r.1 sel,
      warnings := st.warnings ++ r.2 }

/-- Embedding of `IRBuilder.build`: a malformed document is caught and
yields the untouched (empty) IR plus a warning; otherwise each `t`
descendant of the root is processed in order, followed by each of its `rp`
descendants. -/
def build (doc : Except String XmlElem) :
    IntermediateRepresentation × List String :=
  match doc with
  | Except.error m =>
    ({ protocol := "HTTP", transactions := [], meta := [] },
     ["IR building failed: " ++ m])
  | Except.ok root =>
    let final := (findallTag root "t").foldl (fun st te =>
      let tid := (lookupAssoc te.attrs "id").getD "unknown"
      let st1 := process_transaction_start te st
      (findallTag te "rp").foldl (fun s rp => process_response_variant rp tid s) st1)
      { transactions := [], warnings := [] }
    ({ protocol := "HTTP", transactions := final.transactions, meta := [] },
     final.warnings)

/-- Embedding of `build_ir_from_vsi`: the convenience wrapper returning the
(IR, warnings) tuple. -/
def build_ir_from_vsi (doc : Except String XmlElem) :
    IntermediateRepresentation × List String :=
  build doc

end Vsi2wm.IRBuilder

namespace Vsi2wm

/-- JSON values as produced by `json.loads`; numeric and string payloads
are kept as lexemes, which is enough for every claim (no claim inspects a
parsed payload beyond equality). -/
inductive JsonVal where
  | null
  | bool (b : Bool)
  | num (lexeme : String)
  | str (chars : String)
  | arr (elems : List JsonVal)
  | obj (fields : List (String × JsonVal))

/-- Hexadecimal digit test for JSON `\u` escapes. -/
def isHexDigitC (c : Char) : Bool :=
  c.isDigit || ('a' ≤ c && c ≤ 'f') || ('A' ≤ c && c ≤ 'F')

/-- JSON whitespace. -/
def jsonWs (c : Char) : Bool :=
  c = ' ' || c = '\t' || c = '\n' || c = '\r'

/-- Parse a JSON string body after the opening quote, returning the raw
characters (escapes kept verbatim after validation) and the rest. -/
def jsonStringTail : List Char → Option (List Char × List Char)
  | [] => none
  | c :: rest =>
    if c = '"' then some ([], rest)
    else if c = '\\' then
      match rest with
      | [] => none
      | e :: rest2 =>
        if e = 'u' then
          match rest2 with
          | a :: b :: cc :: d :: rest3 =>
            if isHexDigitC a && isHexDigitC b && isHexDigitC cc && isHexDigitC d then
              (jsonStringTail rest3).map (fun r => (c :: e :: a :: b :: cc :: d :: r.1, r.2))
            else none
          | _ => none
        else if e = '"' || e = '\\' || e = '/' || e = 'b' || e = 'f' ||
            e = 'n' || e = 'r' || e = 't' then
          (jsonStringTail rest2).map (fun r => (c :: e :: r.1, r.2))
        else none
    else if c.toNat < 32 then none
    else (jsonStringTail rest).map (fun r => (c :: r.1, r.2))

/-- Parse a strict JSON number: optional minus, `0` or a nonzero-led digit
run, optional fraction, optional exponent. -/
def jsonNumber (s : List Char) : Option (List Char × List Char) := do
  let (sgn, s1) := match s with
    | '-' :: r => (['-'], r)
    | _ => ([], s)
  let (ip, s2) ← match s1 with
    | '0' :: r => some (['0'], r)
    | c :: _ =>
      if c.isDigit then
        let ds := s1.takeWhile Char.isDigit
        some (ds, s1.drop ds.length)
      else none
    | [] => none
  let (fp, s3) := match s2 with
    | '.' :: r =>
      let ds := r.takeWhile Char.isDigit
      if ds.isEmpty then ([], s2) else ('.' :: ds, r.drop ds.length)
    | _ => ([], s2)
  if s2 ≠ [] && s2.head? = some '.' && fp = [] then none else
  let (ep, s4) := match s3 with
    | c :: r =>
      if c = 'e' || c = 'E' then
        let (es, r1) := takeSign r
        let ds := r1.takeWhile Char.isDigit
        if ds.isEmpty then ([], s3) else (c :: es ++ ds, r1.drop ds.length)
      else ([], s3)
    | [] => ([], s3)
  if s3 ≠ [] && (s3.head? = some 'e' || s3.head? = some 'E') && ep = [] then none else
  pure (sgn ++ ip ++ fp ++ ep, s4)

mutual

/-- Fuel-bounded parser for one JSON value (embedding the recursive descent
of `json.loads`); the fuel bounds nesting depth. -/
def jsonValue : Nat → List Char → Option (JsonVal × List Char)
  | 0, _ => none
  | Nat.succ n, s =>
    let s := s.dropWhile jsonWs
    match s with
    | [] => none
    | c :: rest =>
      if c = 'n' then
        (stripLit "ull".data rest).map (fun r => (JsonVal.null, r))
      else if c = 't' then
        (stripLit "rue".data rest).map (fun r => (JsonVal.bool true, r))
      else if c = 'f' then
        (stripLit "alse".data rest).map (fun r => (JsonVal.bool false, r))
      else if c = '"' then
        (jsonStringTail rest).map (fun r => (JsonVal.str (String.mk r.1), r.2))
      else if c = '[' then
        let r := rest.dropWhile jsonWs
        match r with
        | ']' :: r2 => some (JsonVal.arr [], r2)
        | _ =>
          match jsonArrItems n rest with
          | some (vs, r2) => some (JsonVal.arr vs, r2)
          | none => none
      else if c = '\x7b' then
        let r := rest.dropWhile jsonWs
        match r with
        | '\x7d' :: r2 => some (JsonVal.obj [], r2)
        | _ =>
          match jsonObjItems n rest with
          | some (fs, r2) => some (JsonVal.obj fs, r2)
          | none => none
      else
        (jsonNumber s).map (fun r => (JsonVal.num (String.mk r.1), r.2))

/-- Comma-separated JSON array items up to the closing bracket. -/
def jsonArrItems : Nat → List Char → Option (List JsonVal × List Char)
  | 0, _ => none
  | Nat.succ n, s => do
    let (v, r) ← jsonValue n s
    let r := r.dropWhile jsonWs
    match r with
    | ',' :: r2 =>
      match jsonArrItems n r2 with
      | some (vs, r3) => some (v :: vs, r3)
      | none => none
    | ']' :: r2 => some ([v], r2)
    | _ => none

/-- Comma-separated JSON object members up to the closing brace. -/
def jsonObjItems : Nat → List Char → Option (List (String × JsonVal) × List Char)
  | 0, _ => none
  | Nat.succ n, s => do
    let s1 := s.dropWhile jsonWs
    match s1 with
    | '"' :: r => do
      let (k, r1) ← jsonStringTail r
      let r2 := r1.dropWhile jsonWs
      match r2 with
      | ':' :: r3 => do
        let (v, r4) ← jsonValue n r3
        let r5 := r4.dropWhile jsonWs
        match r5 with
        | ',' :: r6 =>
          match jsonObjItems n r6 with
          | some (fs, r7) => some ((String.mk k, v) :: fs, r7)
          | none => none
        | '\x7d' :: r6 => some ([(String.mk k, v)], r6)
        | _ => none
      | _ => none
    | _ => none

end

/-- Embedding of `json.loads`: parse one value, allow trailing whitespace,
reject anything else; a failure stands for `json.JSONDecodeError`. -/
def jsonLoads (s : String) : Except String JsonVal :=
  match jsonValue (s.length + 1) s.data with
  | some (v, rest) =>
    if (rest.dropWhile jsonWs).isEmpty then Except.ok v
    else Except.error "json.JSONDecodeError: Extra data"
  | none => Except.error "json.JSONDecodeError: Expecting value"

end Vsi2wm

namespace Vsi2wm.WireMockMapper

/-- One entry of the `bodyPatterns` array emitted by the mapper. -/
inductive BodyPattern where
  | equalToJson (content : String) (ignoreArrayOrder ignoreExtraElements : Bool)
  | equalToXml (content : String)
  | equalTo (content : String)
deriving DecidableEq, Repr

/-- The request-match object built by `_build_request_match`; absent JSON
keys are `none`. -/
structure RequestMatch where
  method : String
  urlPath : Option String := none
  urlPathPattern : Option String := none
  headers : Option (List (String × String)) := none
  queryParameters : Option (List (String × String)) := none
  bodyPatterns : Option (List BodyPattern) := none
deriving DecidableEq, Repr

/-- The response object built by `_build_response`; absent JSON keys are
`none`. -/
structure ResponseOut where
  status : Int
  headers : List (String × String) := []
  body : Option String := none
  jsonBody : Option JsonVal := none
  delayDistributionType : Option String := none
  delayLower : Option Int := none
  delayUpper : Option Int := none
  fixedDelayMilliseconds : Option Int := none
  transformers : List String := []

/-- One WireMock stub record (`_create_stub`): priority, request match,
response, and the `metadata` keys. -/
structure Stub where
  priority : Nat
  request : RequestMatch
  response : ResponseOut
  meta_transaction_id : String
  meta_variant_weight : Rat
  meta_selection_logic : Option String := none

/-- Embedding of `WireMockMapper._build_request_match` for a given
`soap_match_strategy` (the mapper's `latency_strategy` is never read in
the mapping logic and is omitted).  The SOAP-action header predicate is
added only when the strategy is `soapAction` or `both`. -/
def build_request_match (strategy : String) (request : Request) : RequestMatch :=
  let rm : RequestMatch := { method := request.method }
  let rm :=
    if pyTruthyStr request.path_template then
      { rm with urlPathPattern := request.path_template }
    else
      { rm with urlPath := some request.path }
  let rm :=
    if !request.headers.isEmpty then { rm with headers := some request.headers }
    else rm
  let rm :=
    if !request.query.isEmpty then { rm with queryParameters := some request.query }
    else rm
  let rm :=
    match request.body with
    | some b =>
      if b.type = "json" then
        { rm with bodyPatterns := some [BodyPattern.equalToJson b.content true true] }
      else if b.type = "xml" then
        { rm with bodyPatterns := some [BodyPattern.equalToXml b.content] }
      else
        { rm with bodyPatterns := some [BodyPattern.equalTo b.content] }
    | none => rm
  match request.soap_action with
  | some a =>
    if a ≠ "" && (strategy = "soapAction" || strategy = "both") then
      { rm with headers := some (upsertAssoc (rm.headers.getD []) "SOAPAction" a) }
    else rm
  | none => rm

/-- Embedding of the body section of `WireMockMapper._build_response`: a
JSON-typed body whose content still holds `{{`/`}}` template markers is
emitted as a literal string with a defaulted JSON content type; a
JSON-typed body without markers is parsed by `json.loads`, whose failure
propagates as an error; XML and text bodies are literal strings. -/
def build_response_body (variant : ResponseVariant) : Except String ResponseOut :=
  let r0 : ResponseOut := { status := variant.status, headers := variant.headers }
  match variant.body with
  | some b =>
    if b.type = "json" then
      if containsSub b.content "\x7b\x7b" && containsSub b.content "\x7d\x7d" then
        Except.ok { r0 with
          body := some b.content,
          headers := upsertAssoc r0.headers "Content-Type" "application/json" }
      else
        match jsonLoads b.content with
        | Except.ok j => Except.ok { r0 with jsonBody := some j }
        | Except.error m => Except.error m
    else
      Except.ok { r0 with body := some b.content }
  | none => Except.ok r0

/-- Embedding of `WireMockMapper._build_response` continued: the latency
block and the always-attached response-templating transformer on top of the
status/headers/body section. -/
def build_response (variant : ResponseVariant) : Except String ResponseOut :=
  match build_response_body variant with
  | Except.error m => Except.error m
  | Except.ok r1 =>
    let r2 :=
      match variant.latency with
      | some lat =>
        if lat.mode = "range" then
          { r1 with
              delayDistributionType := some "uniform",
              delayLower := lat.min_ms,
              delayUpper := lat.max_ms }
        else if lat.mode = "fixed" then
          { r1 with fixedDelayMilliseconds := lat.fixed_ms }
        else r1
      | none => r1
    Except.ok { r2 with transformers := ["response-template"] }

/-- Embedding of `WireMockMapper._create_stub`. -/
def create_stub (strategy : String) (transaction : Transaction)
    (variant : ResponseVariant) (priority : Nat) : Except String Stub :=
  match build_response variant with
  | Except.error m => Except.error m
  | Except.ok resp =>
    Except.ok
      { priority := priority,
        request := build_request_match strategy transaction.request,
        response := resp,
        meta_transaction_id := transaction.id,
        meta_variant_weight := variant.weight,
        meta_selection_logic :=
          if pyTruthyStr transaction.selection_logic then transaction.selection_logic
          else none }

/-- Stable insertion step for sorting variants by weight descending: the
new element goes in front of the first element whose weight is less than
or equal to its own. -/
def insertByWeightDesc (v : ResponseVariant) :
    List ResponseVariant → List ResponseVariant
  | [] => [v]
  | w :: ws =>
    if w.weight ≤ v.weight then v :: w :: ws else w :: insertByWeightDesc v ws

/-- Embedding of `sorted(transaction.response_variants, key=weight,
reverse=True)`: Python's sort is stable and `reverse=True` preserves the
original order of equal keys, which is exactly what right-to-left stable
insertion produces. -/
def sortByWeightDesc (l : List ResponseVariant) : List ResponseVariant :=
  l.foldr insertByWeightDesc []

/-- Build the stubs of one transaction from its enumerated, sorted
variants (the enumeration index becomes the priority). -/
def mapVariants (strategy : String) (t : Transaction) :
    List (Nat × ResponseVariant) → Except String (List Stub)
  | [] => Except.ok []
  | (i, v) :: rest =>
    match create_stub strategy t v i with
    | Except.error m => Except.error m
    | Except.ok s =>
      match mapVariants strategy t rest with
      | Except.error m => Except.error m
      | Except.ok ss => Except.ok (s :: ss)

/-- All stubs emitted for one transaction. -/
def stubsForTransaction (strategy : String) (t : Transaction) :
    Except String (List Stub) :=
  mapVariants strategy t (sortByWeightDesc t.response_variants).enum

/-- Concatenate the stubs of a list of transactions, propagating the first
error. -/
def mapTransactions (strategy : String) : List Transaction →
    Except String (List Stub)
  | [] => Except.ok []
  | t :: ts =>
    match stubsForTransaction strategy t with
    | Except.error m => Except.error m
    | Except.ok ss =>
      match mapTransactions strategy ts with
      | Except.error m => Except.error m
      | Except.ok rest => Except.ok (ss ++ rest)

/-- Embedding of `WireMockMapper.map_ir_to_stubs` / `map_ir_to_wiremock`:
one stub per (transaction, variant) pair, variants sorted by weight
descending, priorities assigned by sorted position. -/
def map_ir_to_stubs (strategy : String) (ir : IntermediateRepresentation) :
    Except String (List Stub) :=
  mapTransactions strategy ir.transactions

end Vsi2wm.WireMockMapper

namespace Vsi2wm.Core

/-- The `ConversionReport` fields that the translation pipeline writes
(file paths and on-disk saving are external I/O and not modelled). -/
structure Report where
  source_version : Option String := none
  build_number : Option String := none
  transactions_count : Nat := 0
  variants_count : Nat := 0
  stubs_generated : Nat := 0
  warnings : List String := []
  notes : List String := []
deriving DecidableEq, Repr

/-- Python f-string rendering of an optional protocol value
(`None` prints as the text `None`). -/
def pyShowOptStr : Option String → String
  | none => "None"
  | some s => s

/-- Embedding of `VSIConverter.convert` (`vsi2wm/core.py`).  The inputs are
the event-stream view of the file (consumed by the parser) and the
tree-parse view (consumed by the IR builder); for one on-disk file the two
are derived from the same document.

The whole body runs in one `try` block.  Parsing never raises (every
parser method catches internally) and a non-HTTP file returns the success
code 0 after recording the skip warning.  On the HTTP path the source then
executes `ir = build_ir_from_vsi(self.input_file)` — whose value is the
`(ir, warnings)` **tuple** — and immediately evaluates `ir.transactions`,
which raises `AttributeError` on a tuple; `build` itself never raises (it
catches everything), so this attribute access is reached on every HTTP
input, the blanket `except` records the failure warning, and the exit code
is 1.  The mapper and writer stages after it are unreachable. -/
def convert (inp : ParseInput) (doc : Except String XmlElem) : Nat × Report :=
  let pr := parse_vsi_file inp
  let rep0 : Report :=
    { source_version := pr.source_version,
      build_number := pr.build_number,
      transactions_count := pr.transactions_count,
      warnings := pr.warnings }
  if !pr.is_http then
    (0, { rep0 with
            warnings := rep0.warnings ++
              ["Non-HTTP protocol detected: " ++ pyShowOptStr pr.protocol] })
  else
    let rep1 :=
      { rep0 with
          notes :=
            ["Detected layout: " ++ pr.layout,
             "Protocol: " ++
               (match pr.protocol with
                | some p => if p = "" then "HTTP (assumed)" else p
                | none => "HTTP (assumed)"),
             "Transactions found: " ++ toString pr.transactions_count] }
    let _irw := IRBuilder.build_ir_from_vsi doc
    (1, { rep1 with
            warnings := rep1.warnings ++
              ["Conversion failed: 'tuple' object has no attribute 'transactions'"] })

end Vsi2wm.Core

namespace Vsi2wm

/-- Does an event short-circuit layout detection (a `bd` or
`reqData`/`rspData` start)? -/
def isMarkerStart : XEvent → Bool
  | XEvent.start e => e.tag = "bd" || e.tag = "reqData" || e.tag = "rspData"
  | XEvent.stop _ => false

/-- The events the layout loop actually consumes: everything before the
first short-circuiting marker. -/
def preMarker (evs : List XEvent) : List XEvent :=
  evs.takeWhile (fun ev => !isMarkerStart ev)

/-- Number of `t` start events in a stream segment. -/
def countTStarts (evs : List XEvent) : Nat :=
  ((startElems evs).filter (fun e => e.tag = "t")).length

theorem countTStarts_nil : countTStarts [] = 0 := rfl

/-- The layout loop counts exactly the `t` starts that precede the first
short-circuiting marker. -/
theorem layoutLoop_count (evs : List XEvent) :
    ∀ n : Nat, (layoutLoop evs n).2 = n + countTStarts (preMarker evs) := by
  induction evs with
  | nil => intro n; simp [layoutLoop, preMarker, countTStarts, startElems]
  | cons ev rest ih =>
    intro n
    cases ev with
    | start e =>
      by_cases hbd : e.tag = "bd"
      · simp [layoutLoop, hbd, preMarker, isMarkerStart, countTStarts, startElems]
      · by_cases hrr : e.tag = "reqData" || e.tag = "rspData"
        · simp only [Bool.or_eq_true, decide_eq_true_eq] at hrr
          rcases hrr with h | h <;>
            simp [layoutLoop, hbd, h, preMarker, isMarkerStart, countTStarts,
              startElems]
        · simp only [Bool.or_eq_true, decide_eq_true_eq, not_or] at hrr
          by_cases ht : e.tag = "t"
          · simp [layoutLoop, hbd, hrr.1, hrr.2, ht, preMarker, isMarkerStart,
              countTStarts, startElems, List.takeWhile, ih]
            omega
          · simp [layoutLoop, hbd, hrr.1, hrr.2, ht, preMarker, isMarkerStart,
              countTStarts, startElems, List.takeWhile, ih]
    | stop e =>
      simp [layoutLoop, preMarker, isMarkerStart, countTStarts, startElems,
        List.takeWhile, ih]

end Vsi2wm

namespace Vsi2wm.Claims

/-- Conditional characterization of `detect_body_type` with propositional
conditions. -/
theorem detect_body_type_cases (s : String) :
    detect_body_type s =
      (if (pyStripL s.data).head? = some '\x7b' ∧
          (pyStripL s.data).getLast? = some '\x7d' then "json"
       else if (pyStripL s.data).head? = some '<' ∧
          (pyStripL s.data).getLast? = some '>' then "xml"
       else "text") := by
  simp only [detect_body_type, Bool.and_eq_true, decide_eq_true_eq]

/-- Claim C5: body-type inference is total on strings; after trimming,
brace-delimited content is JSON, otherwise angle-delimited content is XML,
otherwise (including empty and whitespace-only content) text; and the four
reference inputs classify as JSON, XML, text, text. -/
theorem c5_detect_body_type :
    (∀ s : String,
      detect_body_type s = "json" ∨ detect_body_type s = "xml" ∨
        detect_body_type s = "text") ∧
    (∀ s : String,
      (pyStripL s.data).head? = some '\x7b' →
      (pyStripL s.data).getLast? = some '\x7d' →
      detect_body_type s = "json") ∧
    (∀ s : String,
      ¬((pyStripL s.data).head? = some '\x7b' ∧
        (pyStripL s.data).getLast? = some '\x7d') →
      (pyStripL s.data).head? = some '<' →
      (pyStripL s.data).getLast? = some '>' →
      detect_body_type s = "xml") ∧
    (∀ s : String,
      ¬((pyStripL s.data).head? = some '\x7b' ∧
        (pyStripL s.data).getLast? = some '\x7d') →
      ¬((pyStripL s.data).head? = some '<' ∧
        (pyStripL s.data).getLast? = some '>') →
      detect_body_type s = "text") ∧
    (∀ s : String, pyStripL s.data = [] → detect_body_type s = "text") ∧
    detect_body_type "\x7b\"a\":1\x7d" = "json" ∧
    detect_body_type "<a/>" = "xml" ∧
    detect_body_type "hello" = "text" ∧
    detect_body_type "" = "text" := by
  refine ⟨?_, ?_, ?_, ?_, ?_, by decide, by decide, by decide, by decide⟩
  · intro s
    rw [detect_body_type_cases]
    split
    · exact Or.inl rfl
    · split
      · exact Or.inr (Or.inl rfl)
      · exact Or.inr (Or.inr rfl)
  · intro s h1 h2
    rw [detect_body_type_cases, if_pos ⟨h1, h2⟩]
  · intro s hne h1 h2
    rw [detect_body_type_cases, if_neg hne, if_pos ⟨h1, h2⟩]
  · intro s h1 h2
    rw [detect_body_type_cases, if_neg h1, if_neg h2]
  · intro s h
    rw [detect_body_type_cases]
    rw [h]
    simp

/-- Witness for C5: the conditional clauses applied at concrete inputs. -/
theorem c5_witness :
    detect_body_type " \x7bx\x7d " = "json" ∧
    detect_body_type " <x> " = "xml" ∧
    detect_body_type "  " = "text" :=
  ⟨c5_detect_body_type.2.1 " \x7bx\x7d " (by decide) (by decide),
   c5_detect_body_type.2.2.1 " <x> " (by decide) (by decide) (by decide),
   c5_detect_body_type.2.2.2.2.1 "  " (by decide)⟩

end Vsi2wm.Claims

namespace Vsi2wm.Claims

/-- A well-formed document whose first transaction contains a `bd` body
marker and which holds a second transaction after it: layout detection
short-circuits at the `bd` start before ever seeing the second `t`. -/
def c6Doc : XmlElem :=
  ⟨"serviceImage", [], none,
    [⟨"t", [("id", "1")], none, [⟨"bd", [], some "x", []⟩]⟩,
     ⟨"t", [("id", "2")], none, []⟩]⟩

/-- Counterexample to claim C6: the document holds two `t` elements, but
layout detection reports a transaction count of 1, because the first `bd`
start breaks the scanning loop before the second `t` start; the claim
asserts the count equals the total number of `t` elements even when a
marker short-circuits detection, which is false here. -/
theorem c6_counterexample :
    (findallTag c6Doc "t").length = 2 ∧
    (detect_layout (wellFormed c6Doc)).layout = "model_based" ∧
    (detect_layout (wellFormed c6Doc)).transactions_count = 1 := by
  refine ⟨by decide, by decide, by decide⟩

/-- Claim C6 amended: the reported transaction count equals the number of
`t` start events that occur strictly before the first short-circuiting
marker (`bd`, `reqData` or `rspData`) in the stream — in particular it
equals the total number of `t` elements only when no such marker occurs
among the preceding events. -/
theorem c6_amended (inp : ParseInput) :
    (detect_layout inp).transactions_count = countTStarts (preMarker inp.events) := by
  unfold detect_layout
  have h := layoutLoop_count inp.events 0
  rcases hl : layoutLoop inp.events 0 with ⟨short, n⟩
  rw [hl] at h
  simp only at h
  cases short with
  | none =>
    cases inp.err with
    | none => simpa using h
    | some m => simpa using h
  | some l => simpa using h

end Vsi2wm.Claims

namespace Vsi2wm

/-- Updating a key makes it present with the new value. -/
theorem lookupAssoc_upsert (l : List (String × String)) (k v : String) :
    lookupAssoc (upsertAssoc l k v) k = some v := by
  unfold upsertAssoc
  by_cases h : l.any (fun p => p.1 = k)
  · simp only [h, if_true]
    induction l with
    | nil => simp at h
    | cons p rest ih =>
      by_cases hp : p.1 = k
      · simp [lookupAssoc, hp]
      · simp only [List.any_cons, Bool.or_eq_true, decide_eq_true_eq] at h
        rcases h with h | h
        · exact absurd h hp
        · simpa [lookupAssoc, hp] using ih h
  · simp only [h, if_false]
    induction l with
    | nil => simp [lookupAssoc]
    | cons p rest ih =>
      simp only [List.any_cons, Bool.or_eq_true, decide_eq_true_eq, not_or] at h
      simpa [lookupAssoc, h.1] using ih (by simpa using h.2)

end Vsi2wm

namespace Vsi2wm.Claims

open Vsi2wm.WireMockMapper

/-- A request carrying a SOAP action, as produced by the IR builder for a
SOAP transaction. -/
def c1Req : Request :=
  { method := "POST", path := "/soap/service",
    soap_action := some "http://example.com/GetUser" }

/-- Counterexample to claim C1: with the SOAP matching strategy `xpath`
(one of the three documented strategy values), the emitted request match
for a request that carries a SOAP action contains **no** SOAPAction header
predicate at all, while with strategy `both` it does — the strategy choice
does gate the predicate, contrary to the claim. -/
theorem c1_counterexample :
    (build_request_match "xpath" c1Req).headers = none ∧
    lookupAssoc ((build_request_match "xpath" c1Req).headers.getD [])
      "SOAPAction" = none ∧
    lookupAssoc ((build_request_match "both" c1Req).headers.getD [])
      "SOAPAction" = some "http://example.com/GetUser" := by
  refine ⟨by decide, by decide, by decide⟩

/-- Claim C1 amended: the exact SOAPAction header-equality predicate is
added whenever the request carries a (truthy) SOAP action **and** the
strategy is `soapAction` or `both`; under strategy `xpath` the request
match is built exactly as if the request carried no SOAP action. -/
theorem c1_amended :
    (∀ (strategy : String) (req : Request) (a : String),
      req.soap_action = some a → a ≠ "" →
      (strategy = "soapAction" ∨ strategy = "both") →
      lookupAssoc ((build_request_match strategy req).headers.getD [])
        "SOAPAction" = some a) ∧
    (∀ (req : Request) (a : String),
      req.soap_action = some a →
      build_request_match "xpath" req =
        build_request_match "xpath" { req with soap_action := none }) := by
  constructor
  · intro strategy req a hsoap hne hstrat
    unfold build_request_match
    rw [hsoap]
    have hcond : (decide (a ≠ "") &&
        (decide (strategy = "soapAction") || decide (strategy = "both"))) = true := by
      rcases hstrat with h | h <;> simp [h, hne]
    simp only [hcond, if_true]
    exact lookupAssoc_upsert _ _ _
  · intro req a hsoap
    cases req with
    | mk method path pt sa op hs q b =>
      simp only at hsoap
      subst hsoap
      simp [build_request_match]

/-- Witness for C1 amended: strategy `both` on the concrete SOAP request
emits the predicate. -/
theorem c1_amended_witness :
    lookupAssoc ((build_request_match "both" c1Req).headers.getD [])
      "SOAPAction" = some "http://example.com/GetUser" :=
  c1_amended.1 "both" c1Req "http://example.com/GetUser" rfl (by decide)
    (Or.inr rfl)

end Vsi2wm.Claims

namespace Vsi2wm.Claims

/-- A well-formed HTTP-protocol document with one complete transaction:
the premise of claim C2 (HTTP family, no fatal error). -/
def c2Doc : XmlElem :=
  ⟨"serviceImage", [("version", "10.5.0")], none,
    [⟨"protocol", [], some "http", []⟩,
     ⟨"t", [("id", "1")], none,
       [⟨"rq", [], none,
         [⟨"m", [], none,
           [⟨"method", [], some "GET", []⟩,
            ⟨"path", [], some "/api", []⟩]⟩]⟩]⟩]⟩

/-- Claim C2 is right about the intended outcome derivation but the code
contradicts it (and its own test suite, which expects exit code 0): on
this well-formed HTTP document with no fatal error, `convert` returns the
failure code 1, because `build_ir_from_vsi` returns an `(ir, warnings)`
tuple whose `.transactions` attribute access raises `AttributeError`,
swallowed by the blanket `except`.  The parse stage confirms the premise:
the file is HTTP and parsing produced no warnings. -/
theorem c2_http_convert_returns_failure :
    (parse_vsi_file (wellFormed c2Doc)).is_http = true ∧
    (parse_vsi_file (wellFormed c2Doc)).warnings = [] ∧
    (Core.convert (wellFormed c2Doc) (Except.ok c2Doc)).1 = 1 ∧
    (Core.convert (wellFormed c2Doc) (Except.ok c2Doc)).2.warnings =
      ["Conversion failed: 'tuple' object has no attribute 'transactions'"] := by
  refine ⟨by decide, by decide, by decide, by decide⟩

/-- A well-formed document whose declared protocol is `mq`. -/
def c8Doc : XmlElem :=
  ⟨"serviceImage", [], none,
    [⟨"protocol", [], some "mq", []⟩,
     ⟨"t", [("id", "1")], none,
       [⟨"rq", [], none,
         [⟨"m", [], none, [⟨"method", [], some "GET", []⟩]⟩]⟩]⟩]⟩

/-- A non-HTTP detected protocol makes `parse` report `is_http = false`
and record the skip warning. -/
theorem parse_non_http (inp : ParseInput) (p : String)
    (hp : (parse_vsi_file inp).protocol = some p)
    (hf : isHttpValue p = false) :
    (parse_vsi_file inp).is_http = false ∧
    ("Skipping non-HTTP protocol: " ++ p) ∈ (parse_vsi_file inp).warnings := by
  have hd : (detect_protocol inp).1 = some p := hp
  have hhttp : is_http_protocol inp =
      (false, (detect_protocol inp).2 ++ ["Skipping non-HTTP protocol: " ++ p]) := by
    simp only [is_http_protocol]
    rw [hd]
    simp [hf]
  constructor
  · show (is_http_protocol inp).1 = false
    rw [hhttp]
  · show _ ∈ (detect_layout inp).warnings ++ _ ++ (detect_protocol inp).2 ++
      (is_http_protocol inp).2
    rw [hhttp]
    simp

/-- Claim C8: a source file whose declared protocol is any non-HTTP-family
value (for instance `mq`) converts with outcome code 0, zero generated
stubs, and an advisory warning naming the skipped protocol; the concrete
`mq` document confirms each part. -/
theorem c8_non_http_skip :
    (∀ (inp : ParseInput) (doc : Except String XmlElem) (p : String),
      (parse_vsi_file inp).protocol = some p →
      isHttpValue p = false →
      (Core.convert inp doc).1 = 0 ∧
      (Core.convert inp doc).2.stubs_generated = 0 ∧
      ("Skipping non-HTTP protocol: " ++ p) ∈ (Core.convert inp doc).2.warnings ∧
      ("Non-HTTP protocol detected: " ++ p) ∈ (Core.convert inp doc).2.warnings) ∧
    (Core.convert (wellFormed c8Doc) (Except.ok c8Doc)).1 = 0 ∧
    (Core.convert (wellFormed c8Doc) (Except.ok c8Doc)).2.stubs_generated = 0 ∧
    "Skipping non-HTTP protocol: mq" ∈
      (Core.convert (wellFormed c8Doc) (Except.ok c8Doc)).2.warnings := by
  refine ⟨?_, by decide, by decide, by decide⟩
  intro inp doc p hp hf
  obtain ⟨hhttp, hmem⟩ := parse_non_http inp p hp hf
  simp only [Core.convert, hhttp, Bool.not_false, if_true]
  refine ⟨trivial, trivial, List.mem_append_left _ hmem, ?_⟩
  rw [hp]
  exact List.mem_append_right _ (by simp [Core.pyShowOptStr])

/-- Witness for C8: the general clause applied to the `mq` document. -/
theorem c8_witness :
    (Core.convert (wellFormed c8Doc) (Except.ok c8Doc)).1 = 0 ∧
    "Non-HTTP protocol detected: mq" ∈
      (Core.convert (wellFormed c8Doc) (Except.ok c8Doc)).2.warnings := by
  have h := c8_non_http_skip.1 (wellFormed c8Doc) (Except.ok c8Doc) "mq"
    (by decide) (by decide)
  exact ⟨h.1, h.2.2.2⟩

end Vsi2wm.Claims

namespace Vsi2wm.WireMockMapper

/-- Membership through stable insertion. -/
theorem mem_insertByWeightDesc {x v : ResponseVariant} {l : List ResponseVariant} :
    x ∈ insertByWeightDesc v l ↔ x = v ∨ x ∈ l := by
  induction l with
  | nil => simp [insertByWeightDesc]
  | cons w ws ih =>
    by_cases h : w.weight ≤ v.weight
    · simp [insertByWeightDesc, h]
    · simp only [insertByWeightDesc, h, if_false, List.mem_cons, ih]
      tauto

/-- Stable insertion preserves the non-increasing-weight invariant. -/
theorem pairwise_insertByWeightDesc (v : ResponseVariant)
    (l : List ResponseVariant)
    (h : List.Pairwise (fun a b => b.weight ≤ a.weight) l) :
    List.Pairwise (fun a b => b.weight ≤ a.weight) (insertByWeightDesc v l) := by
  induction l with
  | nil => simp [insertByWeightDesc]
  | cons w ws ih =>
    obtain ⟨hw, hws⟩ := List.pairwise_cons.mp h
    by_cases hc : w.weight ≤ v.weight
    · simp only [insertByWeightDesc, if_pos hc]
      refine List.Pairwise.cons ?_ (List.pairwise_cons.mpr ⟨hw, hws⟩)
      intro x hx
      rcases List.mem_cons.mp hx with rfl | hx
      · exact hc
      · exact le_trans (hw x hx) hc
    · simp only [insertByWeightDesc, if_neg hc]
      refine List.Pairwise.cons ?_ (ih hws)
      intro x hx
      rcases mem_insertByWeightDesc.mp hx with rfl | hx
      · exact le_of_lt (lt_of_not_le hc)
      · exact hw x hx

/-- The stable sort emits weights in non-increasing order. -/
theorem pairwise_sortByWeightDesc (l : List ResponseVariant) :
    List.Pairwise (fun a b => b.weight ≤ a.weight) (sortByWeightDesc l) := by
  induction l with
  | nil => simp [sortByWeightDesc]
  | cons v vs ih =>
    exact pairwise_insertByWeightDesc v _ ih

/-- Stable insertion preserves length. -/
theorem length_insertByWeightDesc (v : ResponseVariant)
    (l : List ResponseVariant) :
    (insertByWeightDesc v l).length = l.length + 1 := by
  induction l with
  | nil => rfl
  | cons w ws ih =>
    by_cases h : w.weight ≤ v.weight
    · simp [insertByWeightDesc, h]
    · simp [insertByWeightDesc, h, ih]

/-- Sorting preserves length. -/
theorem length_sortByWeightDesc (l : List ResponseVariant) :
    (sortByWeightDesc l).length = l.length := by
  induction l with
  | nil => rfl
  | cons v vs ih =>
    show (insertByWeightDesc v (sortByWeightDesc vs)).length = vs.length + 1
    rw [length_insertByWeightDesc, ih]

/-- Filtering one weight class through stable insertion: the inserted
element goes to the front of its own class and other classes are
untouched (the walked-over prefix has strictly larger weight). -/
theorem filter_insertByWeightDesc (v : ResponseVariant)
    (l : List ResponseVariant) (w : Rat) :
    (insertByWeightDesc v l).filter (fun x => x.weight = w) =
      if v.weight = w then
        v :: l.filter (fun x => x.weight = w)
      else
        l.filter (fun x => x.weight = w) := by
  induction l with
  | nil =>
    by_cases hv : v.weight = w <;> simp [insertByWeightDesc, hv]
  | cons u us ih =>
    by_cases hc : u.weight ≤ v.weight
    · simp only [insertByWeightDesc, if_pos hc]
      by_cases hv : v.weight = w
      · simp [List.filter_cons, hv]
      · simp [List.filter_cons, hv]
    · simp only [insertByWeightDesc, if_neg hc]
      by_cases hv : v.weight = w
      · have hu : ¬(u.weight = w) := fun hu => hc (le_of_eq (hu.trans hv.symm))
        simp [List.filter_cons, hu, hv, ih]
      · by_cases hu : u.weight = w
        · simp [List.filter_cons, hu, hv, ih]
        · simp [List.filter_cons, hu, hv, ih]

/-- Stability of the weight-descending sort: within each weight class the
source order is preserved exactly. -/
theorem filter_sortByWeightDesc (l : List ResponseVariant) (w : Rat) :
    (sortByWeightDesc l).filter (fun x => x.weight = w) =
      l.filter (fun x => x.weight = w) := by
  induction l with
  | nil => rfl
  | cons v vs ih =>
    show (insertByWeightDesc v (sortByWeightDesc vs)).filter _ = _
    rw [filter_insertByWeightDesc]
    by_cases hv : v.weight = w <;> simp [hv, ih]

/-- A successful variant mapping yields one stub per enumerated variant,
with the enumeration index as priority and the variant's weight in the
metadata. -/
theorem mapVariants_ok (strategy : String) (t : Transaction) :
    ∀ (xs : List (Nat × ResponseVariant)) (ss : List Stub),
      mapVariants strategy t xs = Except.ok ss →
      ss.map (fun s => s.priority) = xs.map (fun p => p.1) ∧
      ss.map (fun s => s.meta_variant_weight) = xs.map (fun p => p.2.weight) := by
  intro xs
  induction xs with
  | nil =>
    intro ss h
    cases h
    simp
  | cons p rest ih =>
    intro ss h
    unfold mapVariants at h
    cases hcs : create_stub strategy t p.2 p.1 with
    | error m => rw [hcs] at h; cases h
    | ok s =>
      rw [hcs] at h
      cases hrest : mapVariants strategy t rest with
      | error m => rw [hrest] at h; cases h
      | ok ss' =>
        rw [hrest] at h
        cases h
        have hs : s.priority = p.1 ∧ s.meta_variant_weight = p.2.weight := by
          unfold create_stub at hcs
          cases hbr : build_response p.2 with
          | error m => rw [hbr] at hcs; cases hcs
          | ok r => rw [hbr] at hcs; cases hcs; exact ⟨rfl, rfl⟩
        obtain ⟨ih1, ih2⟩ := ih ss' hrest
        simp [hs.1, hs.2, ih1, ih2]

end Vsi2wm.WireMockMapper

namespace Vsi2wm.WireMockMapper

/-- A successful per-transaction mapping yields one stub per variant, with
priorities `0..n-1` in emission order and metadata weights equal to the
sorted variant weights. -/
theorem stubsForTransaction_ok (strategy : String) (t : Transaction)
    (ss : List Stub) (h : stubsForTransaction strategy t = Except.ok ss) :
    ss.length = t.response_variants.length ∧
    ss.map (fun s => s.priority) = List.range t.response_variants.length ∧
    ss.map (fun s => s.meta_variant_weight) =
      (sortByWeightDesc t.response_variants).map (fun v => v.weight) ∧
    List.Pairwise (fun a b : Rat => b ≤ a)
      (ss.map (fun s => s.meta_variant_weight)) := by
  obtain ⟨h1, h2⟩ := mapVariants_ok strategy t _ ss h
  have hfst : ((sortByWeightDesc t.response_variants).enum.map (fun p => p.1)) =
      List.range t.response_variants.length := by
    rw [show (fun p : Nat × ResponseVariant => p.1) = Prod.fst from rfl]
    rw [List.enum_map_fst, length_sortByWeightDesc]
  have hsnd : ((sortByWeightDesc t.response_variants).enum.map
      (fun p => p.2.weight)) =
      (sortByWeightDesc t.response_variants).map (fun v => v.weight) := by
    rw [show (fun p : Nat × ResponseVariant => p.2.weight) =
      ((fun v : ResponseVariant => v.weight) ∘ Prod.snd) from rfl]
    rw [← List.map_map, List.enum_map_snd]
  have hp : ss.map (fun s => s.priority) = List.range t.response_variants.length := by
    rw [h1, hfst]
  have hw : ss.map (fun s => s.meta_variant_weight) =
      (sortByWeightDesc t.response_variants).map (fun v => v.weight) := by
    rw [h2, hsnd]
  refine ⟨?_, hp, hw, ?_⟩
  · have := congrArg List.length hp
    simpa using this
  · rw [hw]
    exact List.pairwise_map.mpr (by
      simpa using pairwise_sortByWeightDesc t.response_variants)

/-- A successful whole-IR mapping emits, in total, one stub per
(transaction, variant) pair. -/
theorem mapTransactions_ok_length (strategy : String) :
    ∀ (ts : List Transaction) (stubs : List Stub),
      mapTransactions strategy ts = Except.ok stubs →
      stubs.length = (ts.map (fun t => t.response_variants.length)).sum := by
  intro ts
  induction ts with
  | nil => intro stubs h; cases h; simp
  | cons t rest ih =>
    intro stubs h
    unfold mapTransactions at h
    cases hst : stubsForTransaction strategy t with
    | error m => rw [hst] at h; cases h
    | ok ss =>
      rw [hst] at h
      cases hrest : mapTransactions strategy rest with
      | error m => rw [hrest] at h; cases h
      | ok rest' =>
        rw [hrest] at h
        cases h
        have hlen := (stubsForTransaction_ok strategy t ss hst).1
        simp [hlen, ih rest' hrest]

end Vsi2wm.WireMockMapper

namespace Vsi2wm.Claims

open Vsi2wm.WireMockMapper

/-- The three synthetic variants of the claim's stable-sort check, with
weights 0.5, 0.5 and 0.9 in source order, distinguishable by status. -/
def c4V1 : ResponseVariant := { status := 201, weight := mkRat 1 2 }

def c4V2 : ResponseVariant := { status := 202, weight := mkRat 1 2 }

def c4V3 : ResponseVariant := { status := 203, weight := mkRat 9 10 }

/-- The synthetic transaction holding the three variants. -/
def c4T : Transaction :=
  { id := "T1", request := { method := "GET", path := "/" },
    response_variants := [c4V1, c4V2, c4V3] }

/-- An IR holding only the synthetic transaction. -/
def c4Ir : IntermediateRepresentation := { transactions := [c4T] }

/-- Claim C4: each successfully mapped transaction emits exactly one stub
per response variant; priorities are the positions `0..n-1` of the stable
weight-descending sort, so emitted weights are non-increasing along
priorities and equal-weight variants keep their source order; on the
synthetic weights [0.5, 0.5, 0.9] the variants receive priorities 1, 2
and 0 respectively. -/
theorem c4_stub_per_variant_and_priority :
    (∀ (strategy : String) (t : Transaction) (ss : List Stub),
      stubsForTransaction strategy t = Except.ok ss →
      ss.length = t.response_variants.length ∧
      ss.map (fun s => s.priority) = List.range t.response_variants.length ∧
      List.Pairwise (fun a b : Rat => b ≤ a)
        (ss.map (fun s => s.meta_variant_weight))) ∧
    (∀ (strategy : String) (ir : IntermediateRepresentation)
        (stubs : List Stub),
      map_ir_to_stubs strategy ir = Except.ok stubs →
      stubs.length =
        (ir.transactions.map (fun t => t.response_variants.length)).sum) ∧
    (∀ (l : List ResponseVariant) (w : Rat),
      (sortByWeightDesc l).filter (fun x => x.weight = w) =
        l.filter (fun x => x.weight = w)) ∧
    (map_ir_to_stubs "both" c4Ir).toOption.map
        (fun ss => ss.map (fun s =>
          (s.priority, s.response.status, s.meta_variant_weight))) =
      some [(0, 203, mkRat 9 10), (1, 201, mkRat 1 2), (2, 202, mkRat 1 2)] := by
  refine ⟨?_, ?_, ?_, by decide⟩
  · intro strategy t ss h
    obtain ⟨h1, h2, _, h4⟩ := stubsForTransaction_ok strategy t ss h
    exact ⟨h1, h2, h4⟩
  · intro strategy ir stubs h
    exact mapTransactions_ok_length strategy ir.transactions stubs h
  · intro l w
    exact filter_sortByWeightDesc l w

/-- The stubs that the mapper emits for the synthetic transaction. -/
def c4Rm : RequestMatch := { method := "GET", urlPath := some "/" }

/-- The response shared by the synthetic stubs, up to status. -/
def c4Resp (st : Int) : ResponseOut :=
  { status := st, transformers := ["response-template"] }

/-- The three stubs emitted for the synthetic transaction, in priority
order. -/
def c4Stubs : List Stub :=
  [{ priority := 0, request := c4Rm, response := c4Resp 203,
     meta_transaction_id := "T1", meta_variant_weight := mkRat 9 10 },
   { priority := 1, request := c4Rm, response := c4Resp 201,
     meta_transaction_id := "T1", meta_variant_weight := mkRat 1 2 },
   { priority := 2, request := c4Rm, response := c4Resp 202,
     meta_transaction_id := "T1", meta_variant_weight := mkRat 1 2 }]

/-- Witness for C4: the per-transaction and whole-IR clauses applied to the
synthetic transaction, and the stability clause at weight 0.5. -/
theorem c4_witness :
    c4Stubs.length = c4T.response_variants.length ∧
    c4Stubs.map (fun s => s.priority) = List.range 3 ∧
    c4Stubs.length = (c4Ir.transactions.map
      (fun t => t.response_variants.length)).sum ∧
    (sortByWeightDesc [c4V1, c4V2, c4V3]).filter
        (fun x => x.weight = mkRat 1 2) =
      [c4V1, c4V2, c4V3].filter (fun x => x.weight = mkRat 1 2) := by
  have h1 := (c4_stub_per_variant_and_priority.1 "both" c4T c4Stubs rfl)
  have h2 := c4_stub_per_variant_and_priority.2.1 "both" c4Ir c4Stubs rfl
  have h3 := c4_stub_per_variant_and_priority.2.2.1 [c4V1, c4V2, c4V3]
    (mkRat 1 2)
  exact ⟨h1.1, h1.2.1, h2, h3⟩

end Vsi2wm.Claims

namespace Vsi2wm

/-- A list is a prefix of itself followed by anything. -/
theorem isPrefixOf_append_self : ∀ (lit r : List Char),
    lit.isPrefixOf (lit ++ r) = true
  | [], _ => by simp [List.isPrefixOf]
  | c :: cs, r => by
    simp [List.isPrefixOf, isPrefixOf_append_self cs r]

/-- Stripping a literal from itself plus a remainder yields the
remainder. -/
theorem stripLit_append (lit r : List Char) :
    stripLit lit (lit ++ r) = some r := by
  unfold stripLit
  rw [if_pos (isPrefixOf_append_self lit r), List.drop_left]

/-- `takeWhile` stops exactly at the first element of the suffix when the
whole prefix satisfies the predicate and the suffix head does not. -/
theorem takeWhile_append_stop (p : Char → Bool) :
    ∀ (l : List Char) (x : Char) (r : List Char),
      (∀ c ∈ l, p c = true) → p x = false →
      (l ++ x :: r).takeWhile p = l
  | [], x, r, _, hx => by simp [List.takeWhile, hx]
  | c :: cs, x, r, hl, hx => by
    have hc : p c = true := hl c (List.mem_cons_self c cs)
    have ih := takeWhile_append_stop p cs x r
      (fun d hd => hl d (List.mem_cons_of_mem c hd)) hx
    simp only [List.cons_append, List.takeWhile_cons, hc, if_true, ih]

end Vsi2wm

namespace Vsi2wm.HelperConverter

/-- The catch-all helper pattern matches a lone full helper expression
exactly, yielding its inner content and an empty remainder. -/
theorem tryCatchAt_exact (l : List Char) (hne : l ≠ [])
    (hnb : ∀ c ∈ l, c ≠ '\x7d') :
    tryCatchAt ("\x7b\x7b=".data ++ l ++ "\x7d\x7d".data) = some (l, []) := by
  unfold tryCatchAt
  rw [List.append_assoc, stripLit_append]
  have htake : (l ++ "\x7d\x7d".data).takeWhile (fun c => c ≠ '\x7d') = l := by
    have h2 : "\x7d\x7d".data = '\x7d' :: ['\x7d'] := rfl
    rw [h2]
    exact takeWhile_append_stop _ l '\x7d' ['\x7d']
      (fun c hc => by simp [hnb c hc]) (by simp)
  have hstrip2 : stripLit "\x7d\x7d".data "\x7d\x7d".data = some [] := by decide
  simp only [Option.bind_eq_bind, Option.some_bind, htake]
  rw [if_neg (by simpa using hne)]
  rw [List.drop_left, hstrip2]
  rfl

/-- An element is in the set it was just added to. -/
theorem mem_setAdd_self (st : List String) (x : String) : x ∈ setAdd st x := by
  unfold setAdd
  by_cases h : x ∈ st
  · simp [h]
  · simp [h]

/-- Replacing helpers in a string that is exactly one unsupported helper
expression yields exactly the unsupported marker. -/
theorem replaceUnsupportedL_single (l : List Char) (hne : l ≠ [])
    (hnb : ∀ c ∈ l, c ≠ '\x7d')
    (hunsup : isSupportedFull (catchFull l) = false) :
    replaceUnsupportedL ("\x7b\x7b=".data ++ l ++ "\x7d\x7d".data) =
      "[UNSUPPORTED: ".data ++ l ++ "]".data := by
  have htry : tryReplaceUnsupportedAt ("\x7b\x7b=".data ++ l ++ "\x7d\x7d".data) =
      some ("[UNSUPPORTED: ".data ++ l ++ "]".data, []) := by
    unfold tryReplaceUnsupportedAt
    rw [tryCatchAt_exact l hne hnb]
    simp only [Option.bind_eq_bind, Option.some_bind]
    rw [if_neg (by simp [hunsup])]
    rfl
  have hs : "\x7b\x7b=".data ++ l ++ "\x7d\x7d".data =
      '\x7b' :: ('\x7b' :: '=' :: (l ++ "\x7d\x7d".data)) := by
    simp
  unfold replaceUnsupportedL
  rw [if_neg (by simp [hs])]
  unfold subAll
  have hlen : ("\x7b\x7b=".data ++ l ++ "\x7d\x7d".data).length =
      Nat.succ (l.length + 4) := by
    simp [List.length_append]
  rw [hlen]
  rw [hs] at htry ⊢
  simp [subGo, htry]

/-- Detecting helpers in a string that is exactly one unsupported helper
expression returns exactly that expression and adds it to the set. -/
theorem detectUnsupportedL_single (l : List Char) (st : List String)
    (hne : l ≠ []) (hnb : ∀ c ∈ l, c ≠ '\x7d')
    (hunsup : isSupportedFull (catchFull l) = false) :
    detectUnsupportedL ("\x7b\x7b=".data ++ l ++ "\x7d\x7d".data) st =
      ([String.mk ("\x7b\x7b=".data ++ l ++ "\x7d\x7d".data)],
       setAdd st (String.mk ("\x7b\x7b=".data ++ l ++ "\x7d\x7d".data))) := by
  have hcatch := tryCatchAt_exact l hne hnb
  have hfull : catchFull l = "\x7b\x7b=".data ++ l ++ "\x7d\x7d".data := rfl
  have hs : "\x7b\x7b=".data ++ l ++ "\x7d\x7d".data =
      '\x7b' :: ('\x7b' :: '=' :: (l ++ "\x7d\x7d".data)) := by
    simp
  have hfull2 : catchFull l = '\x7b' :: ('\x7b' :: '=' :: (l ++ "\x7d\x7d".data)) :=
    hfull.trans hs
  unfold detectUnsupportedL
  rw [if_neg (by simp [hs])]
  have hlen : ("\x7b\x7b=".data ++ l ++ "\x7d\x7d".data).length =
      Nat.succ (l.length + 4) := by
    simp [List.length_append]
  have hunsup2 :
      isSupportedFull ('\x7b' :: ('\x7b' :: '=' :: (l ++ "\x7d\x7d".data))) = false := by
    rw [← hfull2]; exact hunsup
  rw [hlen]
  rw [hs] at hcatch ⊢
  simp [detectGo, hcatch, hunsup2, hfull2]

end Vsi2wm.HelperConverter

namespace Vsi2wm.Claims

open Vsi2wm.HelperConverter

/-- Claim C7: the rewriter maps `doRandomString(10)` to the alphanumeric
random-value expression with length 10; a lone unrecognized expression of
the catch-all form becomes the `[UNSUPPORTED: EXPR]` marker with its full
original text added to the unsupported set (stated generally for any
nonempty brace-free inner expression no recognized pattern matches); and
in a mixed string only the unrecognized expression is replaced by the
marker while the recognized one still gets its normal rewrite. -/
theorem c7_rewriter :
    convert_helpers "\x7b\x7b=doRandomString(10)\x7d\x7d" =
      "\x7b\x7brandomValue type='ALPHANUMERIC' length='10'\x7d\x7d" ∧
    convert_helpers "\x7b\x7b=doUnknownHelper()\x7d\x7d" =
      "[UNSUPPORTED: doUnknownHelper()]" ∧
    (detect_unsupported_helpers "\x7b\x7b=doUnknownHelper()\x7d\x7d" []).1 =
      ["\x7b\x7b=doUnknownHelper()\x7d\x7d"] ∧
    convert_helpers
        "id=\x7b\x7b=doRandomString(10)\x7d\x7d and \x7b\x7b=doUnknownHelper()\x7d\x7d!" =
      "id=\x7b\x7brandomValue type='ALPHANUMERIC' length='10'\x7d\x7d and [UNSUPPORTED: doUnknownHelper()]!" ∧
    (detect_unsupported_helpers
        "id=\x7b\x7b=doRandomString(10)\x7d\x7d and \x7b\x7b=doUnknownHelper()\x7d\x7d!" []).1 =
      ["\x7b\x7b=doUnknownHelper()\x7d\x7d"] ∧
    (∀ (content : String) (st : List String),
      content.data ≠ [] →
      (∀ c ∈ content.data, c ≠ '\x7d') →
      isSupportedFull (catchFull content.data) = false →
      replace_unsupported_helpers ("\x7b\x7b=" ++ content ++ "\x7d\x7d") =
        "[UNSUPPORTED: " ++ content ++ "]" ∧
      (detect_unsupported_helpers ("\x7b\x7b=" ++ content ++ "\x7d\x7d") st).1 =
        ["\x7b\x7b=" ++ content ++ "\x7d\x7d"] ∧
      ("\x7b\x7b=" ++ content ++ "\x7d\x7d") ∈
        (detect_unsupported_helpers ("\x7b\x7b=" ++ content ++ "\x7d\x7d") st).2) := by
  refine ⟨by decide, by decide, by decide, by decide, by decide, ?_⟩
  intro content st hne hnb hunsup
  have hdata : ("\x7b\x7b=" ++ content ++ "\x7d\x7d").data =
      "\x7b\x7b=".data ++ content.data ++ "\x7d\x7d".data := rfl
  refine ⟨?_, ?_, ?_⟩
  · show String.mk (replaceUnsupportedL ("\x7b\x7b=" ++ content ++ "\x7d\x7d").data) = _
    rw [hdata, replaceUnsupportedL_single content.data hne hnb hunsup]
    rfl
  · show (detectUnsupportedL ("\x7b\x7b=" ++ content ++ "\x7d\x7d").data st).1 = _
    rw [hdata, detectUnsupportedL_single content.data st hne hnb hunsup]
    rfl
  · show _ ∈ (detectUnsupportedL ("\x7b\x7b=" ++ content ++ "\x7d\x7d").data st).2
    rw [hdata, detectUnsupportedL_single content.data st hne hnb hunsup]
    exact mem_setAdd_self st _

/-- Witness for C7: the general unsupported-expression clause applied to
`doUnknownHelper()` with a nonempty pre-existing set. -/
theorem c7_witness :
    replace_unsupported_helpers "\x7b\x7b=doUnknownHelper()\x7d\x7d" =
      "[UNSUPPORTED: doUnknownHelper()]" ∧
    "\x7b\x7b=doUnknownHelper()\x7d\x7d" ∈
      (detect_unsupported_helpers "\x7b\x7b=doUnknownHelper()\x7d\x7d" ["seen"]).2 := by
  have h := c7_rewriter.2.2.2.2.2 "doUnknownHelper()" ["seen"]
    (by decide) (by decide) (by decide)
  exact ⟨h.1, h.2.2⟩

end Vsi2wm.Claims

namespace Vsi2wm.Claims

/-- The event-stream view of a malformed document that fails immediately:
no events were produced before the XML error. -/
def c3Inp : ParseInput :=
  { events := [], err := some "not well-formed (invalid token): line 1, column 0" }

/-- Counterexample to claim C3: on a malformed document the parse stage
does **not** propagate the error — it catches it, records warnings, and
still produces a layout/metadata result (layout defaulted to model-based,
HTTP assumed); the IR builder likewise catches the error and returns an
(empty) IR value with a warning instead of failing.  Partial results are
therefore produced, contrary to the claim. -/
theorem c3_counterexample :
    (parse_vsi_file c3Inp).layout = "model_based" ∧
    (parse_vsi_file c3Inp).is_http = true ∧
    (parse_vsi_file c3Inp).warnings =
      ["Layout detection failed: not well-formed (invalid token): line 1, column 0",
       "Metadata extraction failed: not well-formed (invalid token): line 1, column 0",
       "Protocol detection failed: not well-formed (invalid token): line 1, column 0",
       "Protocol detection failed: not well-formed (invalid token): line 1, column 0"] ∧
    IRBuilder.build_ir_from_vsi
        (Except.error "not well-formed (invalid token): line 1, column 0") =
      ({ protocol := "HTTP", transactions := [], meta := [] },
       ["IR building failed: not well-formed (invalid token): line 1, column 0"]) := by
  refine ⟨by decide, by decide, by decide, by decide⟩

/-- Claim C3 amended: a malformed document is caught, not propagated — the
IR builder returns an empty IR plus a warning; layout detection (when the
error is reached before any short-circuiting marker) returns a defaulted
model-based layout result carrying the failure warning; and the overall
convert run still exits with failure code 1 (via the downstream
tuple-attribute error on the assumed-HTTP path), so no stub records are
produced — but layout/metadata results and warnings are produced. -/
theorem c3_amended :
    (∀ m : String,
      IRBuilder.build_ir_from_vsi (Except.error m) =
        ({ protocol := "HTTP", transactions := [], meta := [] },
         ["IR building failed: " ++ m])) ∧
    (∀ (evs : List XEvent) (m : String),
      (layoutLoop evs 0).1 = none →
      detect_layout { events := evs, err := some m } =
        { layout := "model_based",
          transactions_count := (layoutLoop evs 0).2,
          warnings := ["Layout detection failed: " ++ m] }) ∧
    (∀ (evs : List XEvent) (m : String) (doc : Except String XmlElem),
      protoLoop (startElems evs) = none →
      (Core.convert { events := evs, err := some m } doc).1 = 1) := by
  refine ⟨fun m => rfl, ?_, ?_⟩
  · intro evs m h
    unfold detect_layout
    rcases hl : layoutLoop evs 0 with ⟨s, n⟩
    rw [hl] at h
    simp only at h
    subst h
    rfl
  · intro evs m doc h
    have hd : detect_protocol { events := evs, err := some m } =
        (none, ["Protocol detection failed: " ++ m]) := by
      simp [detect_protocol, h]
    have hh : is_http_protocol { events := evs, err := some m } =
        (true, ["Protocol detection failed: " ++ m]) := by
      simp [is_http_protocol, hd]
    have hpr : (parse_vsi_file { events := evs, err := some m }).is_http = true := by
      show (is_http_protocol _).1 = true
      rw [hh]
    simp [Core.convert, hpr]

/-- Witness for C3 amended: the layout and convert clauses applied to the
concrete malformed input. -/
theorem c3_amended_witness :
    detect_layout c3Inp =
      { layout := "model_based", transactions_count := 0,
        warnings :=
          ["Layout detection failed: not well-formed (invalid token): line 1, column 0"] } ∧
    (Core.convert c3Inp
        (Except.error "not well-formed (invalid token): line 1, column 0")).1 = 1 := by
  constructor
  · have h := c3_amended.2.1 [] "not well-formed (invalid token): line 1, column 0"
      (by decide)
    simpa using h
  · exact c3_amended.2.2 [] "not well-formed (invalid token): line 1, column 0"
      (Except.error "not well-formed (invalid token): line 1, column 0") (by decide)

end Vsi2wm.Claims


namespace Vsi2wm.WireMockMapper

/-- The latency/transformer stage of the response builder keeps the
status, headers, body and jsonBody of a successful body stage. -/
theorem build_response_proj (v : ResponseVariant) (r1 : ResponseOut)
    (h : build_response_body v = Except.ok r1) :
    ∃ r : ResponseOut, build_response v = Except.ok r ∧
      r.status = r1.status ∧ r.headers = r1.headers ∧
      r.body = r1.body ∧ r.jsonBody = r1.jsonBody := by
  unfold build_response
  rw [h]
  rcases hl : v.latency with _ | lat
  · exact ⟨_, rfl, rfl, rfl, rfl, rfl⟩
  · dsimp only
    by_cases hr : lat.mode = "range"
    · rw [if_pos hr]
      exact ⟨_, rfl, rfl, rfl, rfl, rfl⟩
    · rw [if_neg hr]
      by_cases hf : lat.mode = "fixed"
      · rw [if_pos hf]
        exact ⟨_, rfl, rfl, rfl, rfl, rfl⟩
      · rw [if_neg hf]
        exact ⟨_, rfl, rfl, rfl, rfl, rfl⟩

/-- A failing body stage makes the whole response builder fail with the
same error. -/
theorem build_response_error (v : ResponseVariant) (m : String)
    (h : build_response_body v = Except.error m) :
    build_response v = Except.error m := by
  unfold build_response
  rw [h]

end Vsi2wm.WireMockMapper

namespace Vsi2wm.Claims

/-- A response variant whose body content matches the JSON bracket
heuristic but is not valid JSON and holds no template markers. -/
def c9Var : ResponseVariant :=
  { status := 200, body := some { type := "json", content := "\x7boops\x7d" } }

/-- The request of the malformed-JSON transaction. -/
def c9Req : Request := { method := "GET", path := "/" }

/-- The transaction owning the malformed-JSON variant. -/
def c9T : Transaction :=
  { id := "T1", request := c9Req, response_variants := [c9Var] }

/-- An IR whose only variant is the malformed-JSON one. -/
def c9Ir : IntermediateRepresentation := { transactions := [c9T] }

/-- Counterexample to claim C9: the content `{oops}` is classified as JSON
by the bracket heuristic, holds no `{{` marker, is not valid JSON — and
mapping the variant **does** raise: the response builder (and with it the
whole IR-to-stub mapping) returns an error rather than emitting the body
unvalidated. -/
theorem c9_counterexample :
    detect_body_type "\x7boops\x7d" = "json" ∧
    containsSub "\x7boops\x7d" "\x7b\x7b" = false ∧
    (WireMockMapper.build_response c9Var).toOption.isNone = true ∧
    (WireMockMapper.map_ir_to_stubs "both" c9Ir).toOption.isNone = true := by
  refine ⟨by decide, by decide, by decide, by decide⟩

/-- Claim C9 amended: only the **request** side emits a JSON-classified
body without validation (verbatim into an `equalToJson` pattern); on the
response side a JSON-classified body containing template markers is
emitted literally with a defaulted content type, but a marker-free
JSON-classified body is parsed by a validating `json.loads`, and
malformed content makes the mapping raise an error instead of emitting
the body. -/
theorem c9_amended :
    (∀ (strategy : String) (req : Request) (c : String),
      req.body = some { type := "json", content := c } →
      (WireMockMapper.build_request_match strategy req).bodyPatterns =
        some [WireMockMapper.BodyPattern.equalToJson c true true]) ∧
    (∀ (v : ResponseVariant) (c : String),
      v.body = some { type := "json", content := c } →
      containsSub c "\x7b\x7b" = true → containsSub c "\x7d\x7d" = true →
      ∃ r : WireMockMapper.ResponseOut,
        WireMockMapper.build_response v = Except.ok r ∧
        r.body = some c ∧
        lookupAssoc r.headers "Content-Type" = some "application/json") ∧
    (∀ (v : ResponseVariant) (c : String) (m : String),
      v.body = some { type := "json", content := c } →
      (containsSub c "\x7b\x7b" && containsSub c "\x7d\x7d") = false →
      jsonLoads c = Except.error m →
      WireMockMapper.build_response v = Except.error m) := by
  refine ⟨?_, ?_, ?_⟩
  · intro strategy req c hb
    unfold WireMockMapper.build_request_match
    rw [hb]
    rcases req.soap_action with _ | a
    · rfl
    · dsimp only
      split
      · rfl
      · rfl
  · intro v c hb h1 h2
    have hbody : WireMockMapper.build_response_body v = Except.ok
        { status := v.status,
          headers := upsertAssoc v.headers "Content-Type" "application/json",
          body := some c } := by
      unfold WireMockMapper.build_response_body
      rw [hb]
      simp [h1, h2]
    obtain ⟨r, hr, -, hh, hbdy, -⟩ := WireMockMapper.build_response_proj v _ hbody
    refine ⟨r, hr, ?_, ?_⟩
    · rw [hbdy]
    · rw [hh]
      exact lookupAssoc_upsert _ _ _
  · intro v c m hb hmk hjson
    apply WireMockMapper.build_response_error
    unfold WireMockMapper.build_response_body
    rw [hb]
    dsimp only
    rw [if_pos (show ("json" : String) = "json" from rfl)]
    have hneg : ¬((containsSub c "\x7b\x7b" && containsSub c "\x7d\x7d") = true) := by
      intro hcontra
      rw [hmk] at hcontra
      cases hcontra
    rw [if_neg hneg, hjson]

/-- A request whose body is the malformed JSON content. -/
def c9ReqU : Request :=
  { method := "POST", path := "/",
    body := some (RequestBody.mk "json" "\x7boops\x7d") }

/-- A response variant whose JSON body still holds template markers. -/
def c9TemplVar : ResponseVariant :=
  { status := 200,
    body := some (ResponseBody.mk "json" "\x7b\"a\": \x7b\x7brandomInt\x7d\x7d\x7d") }

/-- Witness for C9 amended: the three clauses at concrete inputs — a
request with a verbatim malformed JSON body pattern, a templated response
body emitted literally, and the malformed marker-free body raising. -/
theorem c9_amended_witness :
    (WireMockMapper.build_request_match "both" c9ReqU).bodyPatterns =
      some [WireMockMapper.BodyPattern.equalToJson "\x7boops\x7d" true true] ∧
    (∃ r : WireMockMapper.ResponseOut,
      WireMockMapper.build_response c9TemplVar = Except.ok r ∧
      r.body = some "\x7b\"a\": \x7b\x7brandomInt\x7d\x7d\x7d" ∧
      lookupAssoc r.headers "Content-Type" = some "application/json") ∧
    WireMockMapper.build_response c9Var =
      Except.error "json.JSONDecodeError: Expecting value" := by
  refine ⟨?_, ?_, ?_⟩
  · exact c9_amended.1 "both" c9ReqU "\x7boops\x7d" rfl
  · exact c9_amended.2.1 c9TemplVar "\x7b\"a\": \x7b\x7brandomInt\x7d\x7d\x7d" rfl
      (by decide) (by decide)
  · exact c9_amended.2.2 c9Var "\x7boops\x7d" _ rfl (by decide) rfl

end Vsi2wm.Claims

namespace Vsi2wm.Claims

/-- An `rq` element that exists but has no child elements (falsy in
Python's element truthiness). -/
def c10Rq : XmlElem := ⟨"rq", [], none, []⟩

/-- A well-formed response variant element for the same transaction. -/
def c10Rp : XmlElem :=
  ⟨"rp", [], none, [⟨"m", [], none, [⟨"status", [], some "200", []⟩]⟩]⟩

/-- A transaction whose request block exists but is childless. -/
def c10T : XmlElem := ⟨"t", [("id", "T1")], none, [c10Rq, c10Rp]⟩

/-- A document holding only the childless-request transaction. -/
def c10Doc : XmlElem := ⟨"serviceImage", [], none, [c10T]⟩

/-- Claim C10: the builder tests the found `rq` element by Python
truthiness, so a present-but-childless request block is treated like a
missing one — no transaction is created, the variant lookup by id then
fails and every response variant of that transaction is discarded, and
nothing is appended to the returned warnings list (the drop is only
logged).  The concrete document produces an empty IR with an empty
warnings list. -/
theorem c10_empty_request_drop :
    (∀ (te : XmlElem) (st : IRBuilder.BuildState) (rq : XmlElem),
      findTag te "rq" = some rq → rq.children = [] →
      IRBuilder.process_transaction_start te st = st) ∧
    (∀ (rp : XmlElem) (tid : String) (st : IRBuilder.BuildState),
      (st.transactions.any (fun t => t.id = tid)) = false →
      IRBuilder.process_response_variant rp tid st = st) ∧
    IRBuilder.build_ir_from_vsi (Except.ok c10Doc) =
      ({ protocol := "HTTP", transactions := [], meta := [] },
       ([] : List String)) := by
  refine ⟨?_, ?_, by decide⟩
  · intro te st rq h1 h2
    unfold IRBuilder.process_transaction_start
    rw [h1]
    dsimp only
    rw [if_pos (show (!elemTruthy rq) = true by simp [elemTruthy, h2])]
  · intro rp tid st h
    unfold IRBuilder.process_response_variant
    rw [if_pos (by simp [h])]

/-- Witness for C10: the drop clauses applied to the concrete transaction
element and builder state. -/
theorem c10_witness :
    IRBuilder.process_transaction_start c10T (IRBuilder.BuildState.mk [] []) =
      IRBuilder.BuildState.mk [] [] ∧
    IRBuilder.process_response_variant c10Rp "T1"
        (IRBuilder.BuildState.mk [] []) =
      IRBuilder.BuildState.mk [] [] := by
  constructor
  · exact c10_empty_request_drop.1 c10T (IRBuilder.BuildState.mk [] []) c10Rq
      rfl rfl
  · exact c10_empty_request_drop.2.1 c10Rp "T1" (IRBuilder.BuildState.mk [] [])
      rfl

end Vsi2wm.Claims
